import Mathlib

/-!
# Verification of the zvt factor engine against its specification

Shallow embedding of the factor computation engine of the `zvt` repository
(`zvt/contract/factor.py`, `zvt/api/selector.py`) and proofs about the
embedded operations.  Python dataframes keyed by `(entity_id, timestamp)`
are embedded as lists of rows, `None` as `Option.none`, Python exceptions
as an `Except` error channel, and the external persistence collaborators
as explicit store values threaded through the functions.
-/

namespace Zvt

/-- Entity identifiers are opaque strings. -/
abbrev EntityId := String

/-- Timestamps, abstracted to natural numbers (`to_pd_timestamp` preserves
order and equality; only order and equality of timestamps are used by the
embedded code). -/
abbrev Ts := Nat

/-- The Python exceptions raised by the embedded code. -/
inductive PyError
  | valueError (msg : String)
  | keyError (key : String)
  | attributeError (msg : String)
deriving DecidableEq, Repr

/-- `TargetType` enum from `zvt/contract/factor.py`. -/
inductive TargetType
  | positive
  | negative
  | keep
deriving DecidableEq, Repr

namespace Selector

/-!
## `get_entity_list_by_cap` (`zvt/api/selector.py`)

The daily-kdata query is embedded as an oracle `CapData` mapping a day
number to the list of rows returned for that day; `date_time_by_interval
(timestamp, 1)` becomes `+ 1` on day numbers.  The recursion is embedded
with an explicit fuel argument: a result `some l` for some fuel means the
Python recursion terminates with value `l`; `none` for every fuel means it
never terminates.
-/

/-- One row of the daily kdata table used by `get_entity_list_by_cap`. -/
structure CapRow where
  entity_id : EntityId
  turnover : ℚ
  turnover_rate : ℚ
deriving DecidableEq, Repr

/-- The external kdata query, per day. -/
abbrev CapData := Int → List CapRow

/-- Python truthiness of an optional numeric threshold:
`if cap_start:` is false for `None` and for `0`. -/
def capTruthy : Option ℚ → Bool
  | none => false
  | some c => c ≠ 0

/-- The non-empty branch of `get_entity_list_by_cap`: compute
`cap = turnover / turnover_rate`, filter by the truthy bounds, and return
the index as a list. -/
def capList (df : List CapRow) (cap_start cap_end : Option ℚ) : List EntityId :=
  let withCap := df.map (fun r => (r.entity_id, r.turnover / r.turnover_rate))
  let df1 := if capTruthy cap_start then
      withCap.filter (fun p => (cap_start.getD 0) ≤ p.2)
    else withCap
  let df2 := if capTruthy cap_end then
      df1.filter (fun p => p.2 ≤ (cap_end.getD 0))
    else df1
  df2.map (fun p => p.1)

/-- Fuel-indexed evaluation of `get_entity_list_by_cap`
(`zvt/api/selector.py` lines 223-254).  Structure of the source: if the
day's query is non-empty, filter by cap and return; otherwise, if
`retry_times == 0` return `[]`, else recurse on the next day with
`retry_times - 1`. -/
def getEntityListByCap (data : CapData) :
    Nat → Int → Option ℚ → Option ℚ → Int → Option (List EntityId)
  | 0, _, _, _, _ => none
  | fuel + 1, timestamp, cap_start, cap_end, retry_times =>
    let df := data timestamp
    if df ≠ [] then
      some (capList df cap_start cap_end)
    else if retry_times = 0 then
      some []
    else
      getEntityListByCap data fuel (timestamp + 1) cap_start cap_end (retry_times - 1)

/-- The kdata oracle that never has data. -/
def emptyCapData : CapData := fun _ => []

/-- Termination of the Python recursion: some amount of fuel suffices. -/
def capTerminates (data : CapData) (timestamp : Int) (cap_start cap_end : Option ℚ)
    (retry_times : Int) : Prop :=
  ∃ fuel, (getEntityListByCap data fuel timestamp cap_start cap_end retry_times).isSome

end Selector

namespace Targets

/-!
## `get_targets` and friends (`zvt/contract/factor.py` lines 598-662)

The orchestrator's `result_df` is embedded as an optional frame that
records which of the two result-shaped columns are present together with
the per-row values.  `filter_result` is tri-state (`some true`,
`some false`, `none` = NaN); `score_result` is a rational.
-/

/-- One row of the result table. -/
structure ResultRow where
  entity_id : EntityId
  timestamp : Ts
  filter_result : Option Bool
  score_result : ℚ
deriving DecidableEq, Repr

/-- The result table: which result-shaped columns exist, plus the rows. -/
structure ResultDF where
  hasFilterCol : Bool
  hasScoreCol : Bool
  rows : List ResultRow
deriving DecidableEq, Repr

/-- Modelled from the spec: `pd_is_not_null` (from `zvt.utils.pd_utils`,
not among the provided sources) — a dataframe is "not null" when it is
not `None` and not empty. -/
def pdIsNotNull : Option ResultDF → Bool
  | none => false
  | some d => !d.rows.isEmpty

/-- Modelled from the spec: `is_filter_result_df` (from
`zvt.utils.pd_utils`, not among the provided sources) — the table is
non-null and contains a `filter_result`-shaped column. -/
def isFilterResultDF (df : Option ResultDF) : Bool :=
  pdIsNotNull df && (df.elim false (fun d => d.hasFilterCol))

/-- Modelled from the spec: `is_score_result_df` (from
`zvt.utils.pd_utils`, not among the provided sources) — the table is
non-null and contains a `score_result`-shaped column. -/
def isScoreResultDF (df : Option ResultDF) : Bool :=
  pdIsNotNull df && (df.elim false (fun d => d.hasScoreCol))

/-- Projection `result_df[["filter_result"]]`, keyed rows only. -/
abbrev FilterDF := List (EntityId × Ts × Option Bool)

/-- Projection `result_df[["score_result"]]`: a single-column frame.  The
name of its one value column is recorded so that column access by name
(`score_df["..."]`) can fail exactly as in pandas. -/
structure ScoreDF where
  colName : String
  rows : List (EntityId × Ts × ℚ)
deriving DecidableEq, Repr

/-- Column access on the single-column score frame; raises `KeyError`
when the requested name is not the frame's column. -/
def ScoreDF.col (df : ScoreDF) (c : String) : Except PyError (List (EntityId × Ts × ℚ)) :=
  if c = df.colName then .ok df.rows else .error (.keyError c)

/-- `Factor.get_filter_df` (`factor.py` lines 598-600). -/
def getFilterDf (result_df : Option ResultDF) : Option FilterDF :=
  if isFilterResultDF result_df then
    some ((result_df.elim [] (fun d => d.rows)).map
      (fun r => (r.entity_id, r.timestamp, r.filter_result)))
  else
    none

/-- `Factor.get_score_df` (`factor.py` lines 602-604). -/
def getScoreDf (result_df : Option ResultDF) : Option ScoreDF :=
  if isScoreResultDF result_df then
    some ⟨"score_result",
      (result_df.elim [] (fun d => d.rows)).map
        (fun r => (r.entity_id, r.timestamp, r.score_result))⟩
  else
    none

/-- The "select by filter" section of `get_targets` (`factor.py` lines
623-633): positive keeps `True` rows, negative keeps `False` rows, keep
keeps NaN rows; `None` when no filter column exists. -/
def selectByFilter (result_df : Option ResultDF) (target_type : TargetType) :
    Option (List (EntityId × Ts)) :=
  match getFilterDf result_df with
  | some fdf =>
    if !fdf.isEmpty then
      match target_type with
      | .positive => some ((fdf.filter (fun r => r.2.2 = some true)).map (fun r => (r.1, r.2.1)))
      | .negative => some ((fdf.filter (fun r => r.2.2 = some false)).map (fun r => (r.1, r.2.1)))
      | .keep => some ((fdf.filter (fun r => r.2.2.isNone)).map (fun r => (r.1, r.2.1)))
    else none
  | none => none

/-- The restriction `score_df.loc[selected_df.index, :]` (`factor.py`
lines 638-640), applied only when the filter selection is non-null. -/
def restrictScoreDf (sdf : ScoreDF) (selected : Option (List (EntityId × Ts))) : ScoreDF :=
  match selected with
  | some sel =>
    if !sel.isEmpty then
      { sdf with rows := sdf.rows.filter (fun r => (r.1, r.2.1) ∈ sel) }
    else sdf
  | none => sdf

/-- The threshold comparison of the score selection (`factor.py` lines
641-648), on an already-restricted score frame: positive keeps scores
`>=` the positive threshold, negative keeps scores `<=` the negative
threshold, and keep reads the mask columns `score_result` and `score` —
the latter access is the one that determines whether the branch can run
at all. -/
def selectByScoreCore (sdf : ScoreDF) (positive_threshold negative_threshold : ℚ) :
    TargetType → Except PyError (Option (List (EntityId × Ts)))
  | .positive =>
    sdf.col "score_result" >>= fun c =>
      .ok (some ((c.filter (fun r => positive_threshold ≤ r.2.2)).map (fun r => (r.1, r.2.1))))
  | .negative =>
    sdf.col "score_result" >>= fun c =>
      .ok (some ((c.filter (fun r => r.2.2 ≤ negative_threshold)).map (fun r => (r.1, r.2.1))))
  | .keep =>
    sdf.col "score_result" >>= fun c1 =>
      sdf.col "score" >>= fun _c2 =>
        .ok (some (((c1.filter
          (fun r => negative_threshold < r.2.2 && r.2.2 < positive_threshold))).map
            (fun r => (r.1, r.2.1))))

/-- The "select by score" section of `get_targets` (`factor.py` lines
635-648): when a score frame exists, first restrict it to the
already-selected keys (only when the filter selection is non-null), then
compare against the thresholds.  Column accesses go through
`ScoreDF.col` and can raise `KeyError`. -/
def selectByScore (result_df : Option ResultDF) (selected : Option (List (EntityId × Ts)))
    (target_type : TargetType) (positive_threshold negative_threshold : ℚ) :
    Except PyError (Option (List (EntityId × Ts))) :=
  match getScoreDf result_df with
  | none => .ok selected
  | some sdf0 =>
    selectByScoreCore (restrictScoreDf sdf0 selected) positive_threshold negative_threshold
      target_type

/-- The final projection of `get_targets` (`factor.py` lines 650-662):
restrict the selected keys to the requested timestamp or range and
return the entity list — the empty list when nothing matched. -/
def projectTargets (selected : Option (List (EntityId × Ts)))
    (timestamp start_timestamp end_timestamp : Option Ts) : List EntityId :=
  let target : Option (List (EntityId × Ts)) :=
    match selected with
    | some sel =>
      if !sel.isEmpty then
        match timestamp with
        | some ts =>
          if sel.any (fun r => r.2 = ts) then some (sel.filter (fun r => r.2 = ts)) else none
        | none =>
          some (sel.filter (fun r =>
            (start_timestamp.elim true (fun a => a ≤ r.2)) &&
            (end_timestamp.elim true (fun b => r.2 ≤ b))))
      else none
    | none => none
  match target with
  | some t => if !t.isEmpty then t.map (fun r => r.1) else []
  | none => []

/-- The selection part of `get_targets` (everything after the
mutual-exclusion guard, `factor.py` lines 623-662): the filter
selection, then the score selection (which can raise), then the final
projection. -/
def selectTargets (result_df : Option ResultDF) (timestamp start_timestamp end_timestamp : Option Ts)
    (target_type : TargetType) (positive_threshold negative_threshold : ℚ) :
    Except PyError (List EntityId) :=
  match selectByScore result_df (selectByFilter result_df target_type) target_type
      positive_threshold negative_threshold with
  | .error e => .error e
  | .ok selected2 => .ok (projectTargets selected2 timestamp start_timestamp end_timestamp)

/-- `Factor.get_targets` (`factor.py` lines 612-662): mutual-exclusion
guard first, then the selection. -/
def getTargets (result_df : Option ResultDF) (timestamp start_timestamp end_timestamp : Option Ts)
    (target_type : TargetType) (positive_threshold negative_threshold : ℚ) :
    Except PyError (List EntityId) :=
  if timestamp.isSome && (start_timestamp.isSome || end_timestamp.isSome) then
    .error (.valueError "Use timestamp or (start_timestamp, end_timestamp)")
  else
    selectTargets result_df timestamp start_timestamp end_timestamp target_type
      positive_threshold negative_threshold

end Targets

namespace Pipeline

/-!
## The compute pipeline (`zvt/contract/factor.py`)

Dataframes keyed by `(entity_id, timestamp)` with named columns are
embedded as lists of rows whose cells are name/value pairs; NaN is an
explicit value.  A concrete transformer is its `transform` method, a
function `DF → DF`; a concrete accumulator is its `acc_one` method, a
function over entity-stripped frames; a concrete scorer is its `score`
method, a function `DF → DF`.  All are pure, as the source methods are
(they only build new pandas frames from their arguments).
-/

/-- A cell value: numeric, boolean, or NaN. -/
inductive Val
  | num (q : ℚ)
  | boolean (b : Bool)
  | nan
deriving DecidableEq, Repr

/-- The named cells of one row. -/
abbrev Cells := List (String × Val)

/-- One row of a pipeline table, keyed by `(entity_id, timestamp)`. -/
structure Row where
  entity_id : EntityId
  timestamp : Ts
  cells : Cells
deriving DecidableEq, Repr

/-- A pipeline-stage dataframe. -/
structure DF where
  rows : List Row
deriving DecidableEq, Repr

/-- Modelled from the spec: `pd_is_not_null` (from `zvt.utils.pd_utils`,
not among the provided sources) — not `None` and not empty. -/
def pdIsNotNull : Option DF → Bool
  | none => false
  | some d => !d.rows.isEmpty

/-- Column presence: pandas frames have uniform columns across rows, so
the first row's cell names are the frame's columns. -/
def DF.hasCol (df : DF) (c : String) : Bool :=
  match df.rows with
  | [] => false
  | r :: _ => (r.cells.map Prod.fst).contains c

/-- Modelled from the spec: `is_filter_result_df` — non-null with a
`filter_result`-shaped column. -/
def isFilterResultDF (df : Option DF) : Bool :=
  pdIsNotNull df && df.elim false (fun d => d.hasCol "filter_result")

/-- Modelled from the spec: `is_score_result_df` — non-null with a
`score_result`-shaped column. -/
def isScoreResultDF (df : Option DF) : Bool :=
  pdIsNotNull df && df.elim false (fun d => d.hasCol "score_result")

/-- Row projection onto a list of columns (`df[cols]`). -/
def Row.project (r : Row) (cols : List String) : Row :=
  { r with cells := cols.filterMap (fun c => (r.cells.find? (fun p => p.1 == c)).map (fun p => (c, p.2))) }

/-- Frame projection onto a list of columns (`df[cols]`). -/
def projectCols (df : DF) (cols : List String) : DF :=
  ⟨df.rows.map (fun r => r.project cols)⟩

/-- A row with the entity index level dropped
(`reset_index(level=0, drop=True)`). -/
structure ERow where
  timestamp : Ts
  cells : Cells
deriving DecidableEq, Repr

/-- Drop the entity index level from rows. -/
def stripRows (rows : List Row) : List ERow :=
  rows.map (fun r => ⟨r.timestamp, r.cells⟩)

/-- Re-attach an entity index level to rows. -/
def tagRows (e : EntityId) (rows : List ERow) : List Row :=
  rows.map (fun r => ⟨e, r.timestamp, r.cells⟩)

/-- The distinct entities of a frame (the groups of
`df.groupby(level=0)`; pandas enumerates groups in sorted key order —
the enumeration order is canonicalized here and is irrelevant to the
stated properties). -/
def dfEntities (df : DF) : List EntityId :=
  (df.rows.map (fun r => r.entity_id)).dedup

/-- One entity's slice of a frame. -/
def sliceRows (df : DF) (e : EntityId) : List Row :=
  df.rows.filter (fun r => r.entity_id == e)

/-- An opaque per-entity accumulator state value (a JSON-like mapping). -/
abbrev StateV := List (String × ℚ)

/-- The orchestrator's `states` dict: entity to optional state value
(`acc_one` may return `None` as the state). -/
abbrev States := List (EntityId × Option StateV)

/-- Python `states.get(entity_id)`: `None` both when the key is absent
and when the stored value is `None`. -/
def statesGet (st : States) (e : EntityId) : Option StateV :=
  match st.find? (fun p => p.1 == e) with
  | some p => p.2
  | none => none

/-- The `acc_one` contract: entity, entity-stripped input slice, optional
prior factor slice, optional prior state; returns the optional new factor
slice and the new state. -/
abbrev AccOne := EntityId → List ERow → Option (List ERow) → Option StateV →
  (Option (List ERow) × Option StateV)

/-- The prior-slice lookup of the single-entity branch (`factor.py`
lines 104-107): the whole `acc_df` (index-stripped) when it is non-null
and its first row's entity equals the input's entity, else `None`. -/
def accSingleAccDf : Option DF → EntityId → Option (List ERow)
  | none, _ => none
  | some adf, e =>
    match adf.rows with
    | [] => none
    | r :: _ => if r.entity_id = e then some (stripRows adf.rows) else none

/-- The packaging of one `acc_one` result by the single-entity branch
(`factor.py` lines 109-114): a non-null, non-empty result frame is
re-indexed by the entity; the states dict holds exactly this entity. -/
def accSingleResult (e : EntityId) (rs : Option (List ERow) × Option StateV) :
    Option DF × States :=
  match rs.1 with
  | some ret =>
    if !ret.isEmpty then (some ⟨tagRows e ret⟩, [(e, rs.2)]) else (none, [(e, rs.2)])
  | none => (none, [(e, rs.2)])

/-- The single-entity branch of `Accumulator.acc` (`factor.py` lines
100-114). -/
def accSingle (accOne : AccOne) (input_df : DF) (acc_df : Option DF) (states : States)
    (e : EntityId) : Option DF × States :=
  accSingleResult e
    (accOne e (stripRows input_df.rows) (accSingleAccDf acc_df e) (statesGet states e))

/-- The prior-slice lookup of `cal_acc` (`factor.py` lines 118-128):
`None` when `acc_df` is null or the entity has no group in it.  Groups of
a groupby are non-empty, so the inner null check always strips the
index. -/
def calAccDf : Option DF → EntityId → Option (List ERow)
  | none, _ => none
  | some adf, e =>
    if !adf.rows.isEmpty then
      if e ∈ dfEntities adf then some (stripRows (adf.rows.filter (fun r => r.entity_id == e)))
      else none
    else none

/-- The prior-factor-slice argument that `Accumulator.acc` passes to
`acc_one` for an entity: the single-entity branch's first-entity lookup
when the input has exactly one group, else `cal_acc`'s group lookup —
the same branch dispatch as `acc` itself. -/
def accPriorSlice (input_df : DF) (acc_df : Option DF) (e : EntityId) : Option (List ERow) :=
  match dfEntities input_df with
  | [_] => accSingleAccDf acc_df e
  | _ => calAccDf acc_df e

/-- One group's turn of `cal_acc` inside `g.apply` (`factor.py` lines
118-138): record the entity's new state and append its result rows. -/
def accMultiStep (accOne : AccOne) (input_df : DF) (acc_df : Option DF) (states : States)
    (p : States × List Row) (e : EntityId) : States × List Row :=
  let x := sliceRows input_df e
  let rs := accOne e (stripRows x) (calAccDf acc_df e) (statesGet states e)
  (p.1 ++ [(e, rs.2)], p.2 ++ (match rs.1 with | some ret => tagRows e ret | none => []))

/-- The multi-entity branch of `Accumulator.acc` (`factor.py` lines
115-141): apply `cal_acc` per group, collecting `new_states` in group
order and concatenating the per-group results. -/
def accMulti (accOne : AccOne) (input_df : DF) (acc_df : Option DF) (states : States) :
    Option DF × States :=
  (some ⟨((dfEntities input_df).foldl (accMultiStep accOne input_df acc_df states)
      ([], [])).2⟩,
    ((dfEntities input_df).foldl (accMultiStep accOne input_df acc_df states) ([], [])).1)

/-- `Accumulator.acc` (`factor.py` lines 91-141). -/
def acc (accOne : AccOne) (input_df : DF) (acc_df : Option DF) (states : States) :
    Option DF × States :=
  match dfEntities input_df with
  | [e] => accSingle accOne input_df acc_df states e
  | _ => accMulti accOne input_df acc_df states

/-- The in-memory tables and states of a `Factor` orchestrator. -/
structure FactorS where
  data_df : Option DF
  pipe_df : Option DF
  factor_df : Option DF
  result_df : Option DF
  states : States
deriving DecidableEq, Repr

/-- The configuration of a `Factor` orchestrator that the compute cycle
reads: the optional indicator functions and the recognized flags.
`fillGapFn` abstracts the deterministic reindex-and-fill body of
`fill_gap` (`factor.py` lines 499-507), which `after_compute` applies to
a non-null `result_df`. -/
structure Config where
  transformer : Option (DF → DF)
  accumulator : Option AccOne
  only_load_factor : Bool
  keep_all_timestamp : Bool
  need_persist : Bool
  fillGapFn : DF → DF

/-- `Factor.pre_compute` (`factor.py` lines 386-388). -/
def preCompute (cfg : Config) (s : FactorS) : FactorS :=
  if !cfg.only_load_factor && !pdIsNotNull s.pipe_df then { s with pipe_df := s.data_df } else s

/-- The pipe stage of `compute_factor` (`factor.py` lines 403-406):
transform the raw input when it is non-null and a transformer exists,
else pass the raw input through. -/
def pipeOf (cfg : Config) (s : FactorS) : Option DF :=
  if pdIsNotNull s.data_df && cfg.transformer.isSome then
    cfg.transformer.bind (fun t => s.data_df.map t)
  else s.data_df

/-- `Factor.compute_factor` (`factor.py` lines 399-412). -/
def computeFactor (cfg : Config) (s : FactorS) : FactorS :=
  if cfg.only_load_factor then s
  else
    match pipeOf cfg s, cfg.accumulator with
    | some p, some a =>
      if !p.rows.isEmpty then
        { s with
          pipe_df := some p
          factor_df := (acc a p s.factor_df s.states).1
          states := (acc a p s.factor_df s.states).2 }
      else
        { s with pipe_df := some p, factor_df := some p }
    | _, _ => { s with pipe_df := pipeOf cfg s, factor_df := pipeOf cfg s }

/-- The result-shaped columns of the factor table found by
`compute_result` (`factor.py` lines 416-420). -/
def colsOf (factor_df : Option DF) : List String :=
  (if isFilterResultDF factor_df then ["filter_result"] else []) ++
    (if isScoreResultDF factor_df then ["score_result"] else [])

/-- `Factor.compute_result` (`factor.py` lines 414-423). -/
def computeResult (s : FactorS) : FactorS :=
  if pdIsNotNull s.factor_df then
    if !(colsOf s.factor_df).isEmpty then
      { s with result_df := s.factor_df.map (fun f => projectCols f (colsOf s.factor_df)) }
    else s
  else s

/-- The result table produced by one `compute_result` pass over a
factor table equal to `P`, starting from a previous result `r0`: the
projection onto the result-shaped columns when `P` is non-null and has
some, else the previous result unchanged.  (Characterizes
`compute_result`; used to state the stateless-idempotence theorem.) -/
def resultAfter (P : Option DF) (r0 : Option DF) : Option DF :=
  if (pdIsNotNull P && !(colsOf P).isEmpty) = true then
    P.map (fun f => projectCols f (colsOf P))
  else r0

/-- `Factor.fill_gap` applied to `result_df`: on `None` the attribute
access `self.result_df.index` raises. -/
def fillGap (cfg : Config) (s : FactorS) : Except PyError FactorS :=
  match s.result_df with
  | none => .error (.attributeError "NoneType has no attribute index")
  | some r => .ok { s with result_df := some (cfg.fillGapFn r) }

/-- `Factor.after_compute` (`factor.py` lines 425-432).  `persist_factor`
writes to the external store from a copy of `factor_df` and does not
modify the in-memory tables; its store effect is modelled in the
`Persist` namespace. -/
def afterCompute (cfg : Config) (s : FactorS) : Except PyError FactorS :=
  if cfg.only_load_factor then .ok s
  else if cfg.keep_all_timestamp then fillGap cfg s
  else .ok s

/-- `Factor.compute` (`factor.py` lines 434-449): `pre_compute`, then
`do_compute` (= `compute_factor` then `compute_result`), then
`after_compute`. -/
def compute (cfg : Config) (s : FactorS) : Except PyError FactorS :=
  afterCompute cfg (computeResult (computeFactor cfg (preCompute cfg s)))

/-- `ScoreFactor.compute_result` (`factor.py` lines 668-671): the base
copy step, then — when the factor table is non-null and a scorer is
configured — `result_df` is assigned the scorer's output on the factor
table. -/
def scoreComputeResult : Option (DF → DF) → FactorS → FactorS
  | some sc, s =>
    if pdIsNotNull (computeResult s).factor_df then
      { computeResult s with result_df := (computeResult s).factor_df.map sc }
    else computeResult s
  | none, s => computeResult s

/-!
### `Factor.add_entities` (`factor.py` lines 509-549)
-/

/-- Python set equality of two id lists. -/
def pySetEq (a b : List EntityId) : Bool :=
  a.all (fun x => b.contains x) && b.all (fun x => a.contains x)

/-- Python `list(set(a) - set(b))`.  CPython set iteration order is
unspecified; it is canonicalized here (the ids are only ever used as a
set downstream). -/
def pySetDiff (a b : List EntityId) : List EntityId :=
  (a.filter (fun x => !b.contains x)).dedup

/-- Python `list(set(a + b))`, canonicalized like `pySetDiff`. -/
def pySetUnion (a b : List EntityId) : List EntityId :=
  (a ++ b).dedup

/-- `sort_index(level=[0, 1])`: stable sort by `(entity_id, timestamp)`. -/
def sortIndexRows (rows : List Row) : List Row :=
  rows.mergeSort (fun a b =>
    a.entity_id < b.entity_id || (a.entity_id == b.entity_id && a.timestamp ≤ b.timestamp))

/-- The external fetches `add_entities` performs: `query_data` on the raw
data schema, `get_data` on the factor schema, and `decode_factor_df`
(identity for factors with no declared JSON columns). -/
structure AddEnv where
  queryData : List EntityId → DF
  queryFactor : List EntityId → DF
  decodeFn : DF → DF

/-- The orchestrator fields `add_entities` reads and writes. -/
structure AddState where
  entity_ids : List EntityId
  data_df : Option DF
  factor_df : Option DF

/-- The outcome of `add_entities`: the updated fields, plus which ids
were passed to the raw-input fetch and to the factor fetch (`none` when
the fetch was not performed at all). -/
structure AddResult where
  st : AddState
  fetchedRaw : Option (List EntityId)
  fetchedFactor : Option (List EntityId)

/-- The `if new_entity_ids:` body of `add_entities` (`factor.py` lines
519-549), run on the state whose tracked set was already extended: fetch
and append the new entities' raw input (unless in only-load mode), then
always fetch, decode and append their persisted factor rows, re-sorting
both tables by `(entity, timestamp)`. -/
def addEntitiesNew (env : AddEnv) (only_load_factor : Bool) (s : AddState)
    (new_entity_ids : List EntityId) : AddResult :=
  if !new_entity_ids.isEmpty then
    if !only_load_factor then
      ⟨{ entity_ids := s.entity_ids
         data_df := some ⟨sortIndexRows ((s.data_df.elim [] (fun d => d.rows)) ++
           (env.queryData new_entity_ids).rows)⟩
         factor_df := some ⟨sortIndexRows ((s.factor_df.elim [] (fun d => d.rows)) ++
           (env.decodeFn (env.queryFactor new_entity_ids)).rows)⟩ },
        some new_entity_ids, some new_entity_ids⟩
    else
      ⟨{ s with factor_df := some ⟨sortIndexRows ((s.factor_df.elim [] (fun d => d.rows)) ++
           (env.decodeFn (env.queryFactor new_entity_ids)).rows)⟩ },
        none, some new_entity_ids⟩
  else ⟨s, none, none⟩

/-- `Factor.add_entities` (`factor.py` lines 509-549): a no-op when the
non-empty tracked set equals the given set as a set; otherwise the
tracked set is extended with the union and only the genuinely new
identifiers (`set(entity_ids) - set(self.entity_ids)`) are fed to the
fetch body. -/
def addEntities (env : AddEnv) (only_load_factor : Bool) (s : AddState)
    (entity_ids : List EntityId) : AddResult :=
  if (!s.entity_ids.isEmpty && !entity_ids.isEmpty) && pySetEq s.entity_ids entity_ids then
    ⟨s, none, none⟩
  else if !entity_ids.isEmpty then
    addEntitiesNew env only_load_factor
      { s with entity_ids := pySetUnion s.entity_ids entity_ids }
      (pySetDiff entity_ids s.entity_ids)
  else ⟨s, none, none⟩

end Pipeline

namespace Persist

/-!
## Persistence and initialization (`zvt/contract/factor.py`)

The external persistent store (spec section 6: `get`/`put`/`delete` on
the factor table and the state table, both partitioned by entity) is
embedded as a pair of entity-indexed maps.  Failures of the external
`put` calls are injected through a `PersistEnv` of per-entity failure
flags; a failing call performs no write and raises.
-/

/-- This factor's slice of the external persistent store: the state
record and the persisted factor rows of each entity. -/
structure Store where
  stateOf : EntityId → Option Pipeline.StateV
  rowsOf : EntityId → List Pipeline.Row

/-- `Factor.clear_state_data` (`factor.py` lines 379-384).  The base
`EntityStateService.clear_state_data` is not among the provided sources;
modelled from the spec: it deletes the persisted accumulator state for
this factor name, scoped to one entity when one is given.  `del_data`
then deletes the persisted factor rows, scoped likewise. -/
def clearStateData (store : Store) (entity_id : Option EntityId) : Store :=
  match entity_id with
  | some e =>
    { stateOf := fun x => if x = e then none else store.stateOf x,
      rowsOf := fun x => if x = e then [] else store.rowsOf x }
  | none => { stateOf := fun _ => none, rowsOf := fun _ => [] }

/-- `EntityStateService.persist_state` (not among the provided sources);
modelled from the spec: `put` the entity's state record into the state
store. -/
def putState (store : Store) (e : EntityId) (sv : Option Pipeline.StateV) : Store :=
  { store with stateOf := fun x => if x = e then sv else store.stateOf x }

/-- `df_to_db` for one entity's slice of the factor table (the external
`put`); modelled from the spec: append the slice to the entity's
persisted factor rows. -/
def putRows (store : Store) (e : EntityId) (rows : List Pipeline.Row) : Store :=
  { store with rowsOf := fun x => if x = e then store.rowsOf x ++ rows else store.rowsOf x }

/-- Python truthiness of a state value: `None` and the empty dict are
falsy, so `if state:` skips `persist_state` for them. -/
def stateTruthy : Option Pipeline.StateV → Bool
  | none => false
  | some d => !d.isEmpty

/-- Injected failures of the external `put` calls, per entity. -/
structure PersistEnv where
  stateFail : EntityId → Bool
  rowFail : EntityId → Bool

/-- The failure-free environment. -/
def noFailEnv : PersistEnv := ⟨fun _ => false, fun _ => false⟩

/-- The `df_to_db` part of one loop iteration (`factor.py` lines
586-589): performed only when the entity is among the groups of the
factor table; a failing put writes nothing and the except clause clears
the entity. -/
def rowStep (env : PersistEnv) (df : Pipeline.DF) (store : Store) (e : EntityId) : Store :=
  if e ∈ Pipeline.dfEntities df then
    if env.rowFail e then clearStateData store (some e)
    else putRows store e (Pipeline.sliceRows df e)
  else store

/-- One iteration of the per-entity persist loop (`factor.py` lines
581-594): persist the state when truthy, then the entity's factor slice;
an exception from either step is caught, logged, and answered by
`clear_state_data(entity_id)`. -/
def persistEntityStep (env : PersistEnv) (df : Pipeline.DF) (store : Store)
    (p : EntityId × Option Pipeline.StateV) : Store :=
  if stateTruthy p.2 then
    if env.stateFail p.1 then clearStateData store (some p.1)
    else rowStep env df (putState store p.1 p.2) p.1
  else rowStep env df store p.1

/-- Whether the loop iteration for an entity raises: its state put fails
(for a truthy state), or its row put fails while it has a slice in the
factor table. -/
def entityRaises (env : PersistEnv) (df : Pipeline.DF)
    (p : EntityId × Option Pipeline.StateV) : Bool :=
  (stateTruthy p.2 && env.stateFail p.1) ||
    (decide (p.1 ∈ Pipeline.dfEntities df) && env.rowFail p.1)

/-- `Factor.persist_factor` (`factor.py` lines 571-596), for a factor
with no declared JSON columns (the column-encode step is then the
identity, as `factor_col_map_object_hook` defaults to the empty map):
when accumulator states exist, persist per entity under the per-entity
try/except; otherwise persist the whole table in one `df_to_db` call
(whose failures are not caught and are outside the modelled claims). -/
def persistFactor (env : PersistEnv) (states : Pipeline.States) (df : Pipeline.DF)
    (store : Store) : Store :=
  if !states.isEmpty then
    states.foldl (persistEntityStep env df) store
  else
    (Pipeline.dfEntities df).foldl (fun st e => putRows st e (Pipeline.sliceRows df e)) store

/-!
### Initialization (`Factor.__init__`, `factor.py` lines 304-337)
-/

/-- The constructor flags that the initialization sequence dispatches
on. -/
structure InitFlags where
  clear_state : Bool
  need_persist : Bool
  only_load_factor : Bool
  only_compute_factor : Bool
deriving DecidableEq, Repr

/-- The external pieces of initialization: whether an accumulator is
configured, the two `load_factor` reads (full-range `get_data` and the
trailing-window `load_window_df`), the `computing_window` truncation of
the raw input (lines 312-330, driven by per-entity `get_data` calls on
the store), and the declared window. -/
structure InitEnv where
  hasAccumulator : Bool
  loadWindowDf : Store → Option Pipeline.DF
  loadFullDf : Store → Option Pipeline.DF
  truncateData : Option Pipeline.DF → Store → Option Pipeline.DF
  computing_window : Option Nat

/-- `Factor.load_factor` (`factor.py` lines 344-361): under
`only_compute_factor` only the trailing `acc_window` rows are read, and
only when an accumulator is configured (otherwise `factor_df` stays
`None`); else the full range is read.  `decode_factor_df` is the
identity for a factor with no declared JSON columns. -/
def loadFactor (env : InitEnv) (flags : InitFlags) (store : Store) : Option Pipeline.DF :=
  if flags.only_compute_factor then
    if env.hasAccumulator then env.loadWindowDf store else none
  else env.loadFullDf store

/-- The observable outcome of initialization: the persisted store, the
in-memory tables, and how many times `compute()` was invoked during
`__init__`. -/
structure InitResult where
  store : Store
  data_df : Option Pipeline.DF
  factor_df : Option Pipeline.DF
  computeRuns : Nat

/-- `Factor.__init__` (`factor.py` lines 304-337): if `clear_state`,
clear the persisted rows and state; else if `need_persist` or
`only_load_factor`, load the persisted factor table and truncate the raw
input to the computing window; then register as data listener (no table
effect); finally, whenever `only_load_factor` is set, run `compute()`
once. -/
def factorInit (env : InitEnv) (flags : InitFlags) (store : Store)
    (data_df : Option Pipeline.DF) : InitResult :=
  let base : InitResult :=
    if flags.clear_state then
      { store := clearStateData store none, data_df := data_df, factor_df := none,
        computeRuns := 0 }
    else if flags.need_persist || flags.only_load_factor then
      let fdf := loadFactor env flags store
      let ddf :=
        if Pipeline.pdIsNotNull data_df && env.computing_window.isSome then
          env.truncateData data_df store
        else data_df
      { store := store, data_df := ddf, factor_df := fdf, computeRuns := 0 }
    else
      { store := store, data_df := data_df, factor_df := none, computeRuns := 0 }
  { base with computeRuns := if flags.only_load_factor then 1 else 0 }

end Persist

/-!
## Theorems
-/

namespace Selector

/-- With a perpetually empty data source and a negative retry counter,
the recursion never reaches either base case: the counter is decremented
past every negative value and never equals zero. -/
theorem getEntityListByCap_neg_none (data : CapData) (hdata : ∀ t, data t = []) :
    ∀ (fuel : Nat) (ts : Int) (cs ce : Option ℚ) (r : Int), r < 0 →
      getEntityListByCap data fuel ts cs ce r = none := by
  intro fuel
  induction fuel with
  | zero => intro ts cs ce r _; rfl
  | succ n ih =>
    intro ts cs ce r hr
    have h0 : ¬(r = 0) := by omega
    simp only [getEntityListByCap, hdata ts, ne_eq, not_true_eq_false, if_false, if_neg h0]
    exact ih (ts + 1) cs ce (r - 1) (by omega)

/-- Auxiliary: with fuel `n + 1` and retry counter `n`, the evaluation
produces a value, and the empty list when the data source never has
data. -/
theorem getEntityListByCap_nonneg_aux :
    ∀ (n : Nat) (data : CapData) (ts : Int) (cs ce : Option ℚ) (r : Int), r = n →
      (getEntityListByCap data (n + 1) ts cs ce r).isSome = true ∧
      ((∀ t, data t = []) → getEntityListByCap data (n + 1) ts cs ce r = some []) := by
  intro n
  induction n with
  | zero =>
    intro data ts cs ce r hr
    constructor
    · by_cases h : data ts = []
      · simp [getEntityListByCap, h, hr]
      · simp [getEntityListByCap, h]
    · intro hd
      simp [getEntityListByCap, hd ts, hr]
  | succ n ih =>
    intro data ts cs ce r hr
    have h0 : ¬(r = 0) := by omega
    constructor
    · by_cases h : data ts = []
      · simp only [getEntityListByCap, h, ne_eq, not_true_eq_false, if_false, if_neg h0]
        exact (ih data (ts + 1) cs ce (r - 1) (by omega)).1
      · simp [getEntityListByCap, h]
    · intro hd
      simp only [getEntityListByCap, hd ts, ne_eq, not_true_eq_false, if_false, if_neg h0]
      exact (ih data (ts + 1) cs ce (r - 1) (by omega)).2 hd

/-- C9 counterexample: the claim "get_entity_list_by_cap terminates for
every input" fails at the concrete input `retry_times = -1` with a data
source that never has data — no amount of recursion fuel produces a
result, because the counter is decremented past `-1` and the `== 0` base
case is never reached. -/
theorem getEntityListByCap_neg_retry_diverges :
    ¬ capTerminates emptyCapData 0 none none (-1) := by
  intro h
  obtain ⟨fuel, hf⟩ := h
  rw [getEntityListByCap_neg_none emptyCapData (fun _ => rfl) fuel 0 none none (-1) (by omega)]
    at hf
  simp at hf

/-- C9 (amended): for every nonnegative `retry_times`,
`get_entity_list_by_cap` terminates within `retry_times` recursive
retries (fuel `retry_times + 1` suffices), and returns the empty list
once the counter reaches zero with still no data. -/
theorem getEntityListByCap_terminates (data : CapData) (ts : Int) (cs ce : Option ℚ)
    (r : Int) (h : 0 ≤ r) :
    (getEntityListByCap data (r.toNat + 1) ts cs ce r).isSome = true ∧
    ((∀ t, data t = []) → getEntityListByCap data (r.toNat + 1) ts cs ce r = some []) :=
  getEntityListByCap_nonneg_aux r.toNat data ts cs ce r (by omega)

/-- Witness for C9's amended theorem at `retry_times = 2` with the empty
data source. -/
theorem getEntityListByCap_terminates_witness :
    (getEntityListByCap emptyCapData ((2 : Int).toNat + 1) 0 none none 2).isSome = true ∧
    ((∀ t, emptyCapData t = []) →
      getEntityListByCap emptyCapData ((2 : Int).toNat + 1) 0 none none 2 = some []) :=
  getEntityListByCap_terminates emptyCapData 0 none none 2 (by omega)

end Selector

namespace Targets

/-- C1: at the concrete result table with a `score_result` column holding
scores `0.8`, `-0.8` and `0`, target type positive selects the row at
exactly the positive threshold and negative the row at exactly the
negative threshold, but target type keep raises `KeyError("score")`: the
keep branch reads column `"score"` from a frame whose only column is
`"score_result"`, so the partition claimed for "keep" is unreachable. -/
theorem getTargets_keep_score_bug :
    getTargets (some ⟨false, true, [⟨"E1", 1, none, mkRat 8 10⟩, ⟨"E2", 1, none, mkRat (-8) 10⟩,
        ⟨"E3", 1, none, 0⟩]⟩) none none none .positive (mkRat 8 10) (mkRat (-8) 10) =
      .ok ["E1"] ∧
    getTargets (some ⟨false, true, [⟨"E1", 1, none, mkRat 8 10⟩, ⟨"E2", 1, none, mkRat (-8) 10⟩,
        ⟨"E3", 1, none, 0⟩]⟩) none none none .negative (mkRat 8 10) (mkRat (-8) 10) =
      .ok ["E2"] ∧
    getTargets (some ⟨false, true, [⟨"E1", 1, none, mkRat 8 10⟩, ⟨"E2", 1, none, mkRat (-8) 10⟩,
        ⟨"E3", 1, none, 0⟩]⟩) none none none .keep (mkRat 8 10) (mkRat (-8) 10) =
      .error (.keyError "score") := by
  refine ⟨by rfl, by rfl, by rfl⟩

/-- The score frame produced by `get_score_df` always has column name
`score_result`. -/
theorem getScoreDf_colName (result_df : Option ResultDF) (sdf : ScoreDF)
    (h : getScoreDf result_df = some sdf) : sdf.colName = "score_result" := by
  unfold getScoreDf at h
  split at h
  · cases h; rfl
  · cases h

/-- The key restriction does not change the frame's column name. -/
theorem restrictScoreDf_colName (sdf : ScoreDF) (selected : Option (List (EntityId × Ts))) :
    (restrictScoreDf sdf selected).colName = sdf.colName := by
  unfold restrictScoreDf
  split
  · split <;> rfl
  · rfl

/-- On a frame whose column is `score_result`, the threshold comparison
never raises `ValueError`: its only error source is the keep branch's
access to the non-existent `score` column, which raises `KeyError`. -/
theorem selectByScoreCore_not_valueError (sdf : ScoreDF) (h : sdf.colName = "score_result")
    (pth nth : ℚ) (tt : TargetType) (m : String) :
    selectByScoreCore sdf pth nth tt ≠ .error (.valueError m) := by
  have hok : sdf.col "score_result" = .ok sdf.rows := by
    unfold ScoreDF.col
    rw [if_pos h.symm]
  have herr : sdf.col "score" = .error (.keyError "score") := by
    unfold ScoreDF.col
    rw [if_neg (by rw [h]; intro hx; exact absurd hx (by decide))]
  cases tt with
  | positive =>
    simp only [selectByScoreCore, hok]
    intro hx
    have hx2 : (Except.ok (some ((sdf.rows.filter (fun r => pth ≤ r.2.2)).map
        (fun r => (r.1, r.2.1)))) : Except PyError (Option (List (EntityId × Ts)))) =
        .error (.valueError m) := hx
    exact Except.noConfusion hx2
  | negative =>
    simp only [selectByScoreCore, hok]
    intro hx
    have hx2 : (Except.ok (some ((sdf.rows.filter (fun r => r.2.2 ≤ nth)).map
        (fun r => (r.1, r.2.1)))) : Except PyError (Option (List (EntityId × Ts)))) =
        .error (.valueError m) := hx
    exact Except.noConfusion hx2
  | keep =>
    simp only [selectByScoreCore, hok, herr]
    intro hx
    have hx2 : (Except.error (PyError.keyError "score") :
        Except PyError (Option (List (EntityId × Ts)))) = .error (.valueError m) := hx
    cases hx2

/-- The selection-by-score section never raises `ValueError`. -/
theorem selectByScore_not_valueError (result_df : Option ResultDF)
    (selected : Option (List (EntityId × Ts))) (tt : TargetType) (pth nth : ℚ) (m : String) :
    selectByScore result_df selected tt pth nth ≠ .error (.valueError m) := by
  unfold selectByScore
  cases hs : getScoreDf result_df with
  | none => intro hx; exact Except.noConfusion hx
  | some sdf0 =>
    have hcol : (restrictScoreDf sdf0 selected).colName = "score_result" := by
      rw [restrictScoreDf_colName]
      exact getScoreDf_colName result_df sdf0 hs
    exact selectByScoreCore_not_valueError (restrictScoreDf sdf0 selected) hcol pth nth tt m

/-- `select_targets` (the part of `get_targets` after the guard) never
raises `ValueError`. -/
theorem selectTargets_not_valueError (result_df : Option ResultDF)
    (timestamp start_timestamp end_timestamp : Option Ts) (tt : TargetType)
    (pth nth : ℚ) (m : String) :
    selectTargets result_df timestamp start_timestamp end_timestamp tt pth nth ≠
      .error (.valueError m) := by
  unfold selectTargets
  cases hsc : selectByScore result_df (selectByFilter result_df tt) tt pth nth with
  | ok v =>
    intro hx
    have hx2 : (Except.ok (projectTargets v timestamp start_timestamp end_timestamp) :
        Except PyError (List EntityId)) = .error (.valueError m) := hx
    exact Except.noConfusion hx2
  | error e =>
    intro hx
    have hx2 : (Except.error e : Except PyError (List EntityId)) = .error (.valueError m) := hx
    cases hx2
    exact selectByScore_not_valueError result_df (selectByFilter result_df tt) tt pth nth m hsc

/-- C7: `get_targets` raises `ValueError` immediately whenever both a
single timestamp and one end of a range are supplied, and never raises
`ValueError` when only one addressing mode is supplied. -/
theorem getTargets_mutual_exclusion (result_df : Option ResultDF)
    (timestamp start_timestamp end_timestamp : Option Ts) (tt : TargetType) (pth nth : ℚ) :
    ((timestamp.isSome && (start_timestamp.isSome || end_timestamp.isSome)) = true →
      getTargets result_df timestamp start_timestamp end_timestamp tt pth nth =
        .error (.valueError "Use timestamp or (start_timestamp, end_timestamp)")) ∧
    ((timestamp.isSome && (start_timestamp.isSome || end_timestamp.isSome)) = false →
      ∀ m, getTargets result_df timestamp start_timestamp end_timestamp tt pth nth ≠
        .error (.valueError m)) := by
  constructor
  · intro h
    simp [getTargets, h]
  · intro h m
    simp only [getTargets, h, Bool.false_eq_true, if_false]
    exact selectTargets_not_valueError result_df timestamp start_timestamp end_timestamp tt
      pth nth m

/-- Witness for C7 at concrete inputs: both modes supplied raises the
configuration error; a single timestamp alone does not. -/
theorem getTargets_mutual_exclusion_witness :
    (((some 1 : Option Ts).isSome && ((some 0 : Option Ts).isSome ||
        (none : Option Ts).isSome)) = true →
      getTargets none (some 1) (some 0) none .positive ((8 : ℚ)/10) ((-8 : ℚ)/10) =
        .error (.valueError "Use timestamp or (start_timestamp, end_timestamp)")) ∧
    (((some 1 : Option Ts).isSome && ((none : Option Ts).isSome ||
        (none : Option Ts).isSome)) = false →
      ∀ m, getTargets none (some 1) none none .positive ((8 : ℚ)/10) ((-8 : ℚ)/10) ≠
        .error (.valueError m)) :=
  ⟨(getTargets_mutual_exclusion none (some 1) (some 0) none .positive ((8 : ℚ)/10)
      ((-8 : ℚ)/10)).1,
    (getTargets_mutual_exclusion none (some 1) none none .positive ((8 : ℚ)/10)
      ((-8 : ℚ)/10)).2⟩

end Targets

namespace Pipeline

/-- `compute_result` never changes the factor table. -/
theorem computeResult_factor_df (s : FactorS) : (computeResult s).factor_df = s.factor_df := by
  unfold computeResult
  split
  · split <;> rfl
  · rfl

/-- `compute_result` never changes the raw input table. -/
theorem computeResult_data_df (s : FactorS) : (computeResult s).data_df = s.data_df := by
  unfold computeResult
  split
  · split <;> rfl
  · rfl

/-- Projection keeps a requested column that the frame has. -/
theorem hasCol_projectCols (f : DF) (c : String) (cols : List String) (hc : c ∈ cols)
    (h : f.hasCol c = true) : (projectCols f cols).hasCol c = true := by
  unfold DF.hasCol at h
  cases hr : f.rows with
  | nil => rw [hr] at h; cases h
  | cons r rest =>
    rw [hr] at h
    have hmem : c ∈ r.cells.map Prod.fst := by
      have h2 : List.elem c (r.cells.map Prod.fst) = true := h
      exact List.elem_iff.mp h2
    have hfs : (r.cells.find? (fun p => p.1 == c)).isSome = true := by
      rw [List.find?_isSome]
      obtain ⟨p0, hp0, hfst⟩ := List.mem_map.mp hmem
      exact ⟨p0, hp0, by simp [hfst]⟩
    obtain ⟨q, hq⟩ := Option.isSome_iff_exists.mp hfs
    have hcell : (c, q.2) ∈ (r.project cols).cells :=
      List.mem_filterMap.mpr ⟨c, hc, by rw [hq]; rfl⟩
    have hmem2 : c ∈ (r.project cols).cells.map Prod.fst :=
      List.mem_map.mpr ⟨(c, q.2), hcell, rfl⟩
    unfold DF.hasCol projectCols
    rw [hr]
    show ((r.project cols).cells.map Prod.fst).contains c = true
    exact List.elem_iff.mpr hmem2

/-- C5 counterexample: the claim fails at a concrete `ScoreFactor` whose
factor table has both result-shaped columns and whose scorer returns a
frame containing only the score column: the base `compute_result` does
copy `filter_result` into the result table, but the scorer's output then
replaces the result table, so `filter_result` is no longer present. -/
theorem scoreComputeResult_drops_filter_col :
    ((scoreComputeResult (some (fun f => projectCols f ["score_result"]))
        ⟨none, none, some (DF.mk [⟨"E1", 1, [("filter_result", Val.boolean true),
          ("score_result", Val.num 1)]⟩]), none, []⟩).result_df.elim false
      (fun d => d.hasCol "filter_result")) = false ∧
    ((computeResult ⟨none, none, some (DF.mk [⟨"E1", 1, [("filter_result", Val.boolean true),
        ("score_result", Val.num 1)]⟩]), none, []⟩).result_df.elim false
      (fun d => d.hasCol "filter_result")) = true := by
  exact ⟨rfl, rfl⟩

/-- C5 (amended): for every `ScoreFactor` with a configured scorer and a
non-empty factor table, `compute_result` first performs the base copy
step (in particular a `filter_result` column of the factor table is
copied into the result table at that point), and then assigns the
scorer's output on the factor table to the result table, replacing it
wholesale — the copied columns survive only if the scorer's output
itself contains them. -/
theorem scoreComputeResult_replaces (sc : DF → DF) (s : FactorS) (f : DF)
    (hf : s.factor_df = some f) (hne : f.rows ≠ []) :
    (scoreComputeResult (some sc) s).result_df = some (sc f) ∧
    (isFilterResultDF s.factor_df = true →
      (computeResult s).result_df.elim false (fun d => d.hasCol "filter_result") = true) := by
  have hpd : pdIsNotNull (some f) = true := by
    unfold pdIsNotNull
    show (!f.rows.isEmpty) = true
    cases hr : f.rows with
    | nil => exact absurd hr hne
    | cons a l => rfl
  constructor
  · simp only [scoreComputeResult]
    rw [computeResult_factor_df, hf]
    rw [if_pos hpd]
    rfl
  · intro hfl
    have hfl2 : isFilterResultDF (some f) = true := by
      rw [← hf]
      exact hfl
    have hcolsEq : colsOf (some f) = "filter_result" ::
        (if isScoreResultDF (some f) = true then ["score_result"] else []) := by
      unfold colsOf
      rw [if_pos hfl2]
      rfl
    have hhc : f.hasCol "filter_result" = true := by
      unfold isFilterResultDF at hfl2
      simp only [Bool.and_eq_true] at hfl2
      simpa using hfl2.2
    have hkeep : (projectCols f (colsOf (some f))).hasCol "filter_result" = true :=
      hasCol_projectCols f "filter_result" (colsOf (some f))
        (by rw [hcolsEq]; exact List.mem_cons_self _ _) hhc
    unfold computeResult
    rw [hf, if_pos hpd]
    split
    · show ((some f).map (fun f0 => projectCols f0 (colsOf (some f)))).elim false
        (fun d => d.hasCol "filter_result") = true
      simpa using hkeep
    · next hcond =>
      rw [hcolsEq] at hcond
      simp at hcond

/-- Witness for C5's amended theorem at the concrete counterexample
inputs. -/
theorem scoreComputeResult_replaces_witness :
    (scoreComputeResult (some (fun f => projectCols f ["score_result"]))
        ⟨none, none, some (DF.mk [⟨"E1", 1, [("filter_result", Val.boolean true),
          ("score_result", Val.num 1)]⟩]), none, []⟩).result_df =
      some ((fun f => projectCols f ["score_result"])
        (DF.mk [⟨"E1", 1, [("filter_result", Val.boolean true),
          ("score_result", Val.num 1)]⟩])) ∧
    (isFilterResultDF (some (DF.mk [⟨"E1", 1, [("filter_result", Val.boolean true),
        ("score_result", Val.num 1)]⟩])) = true →
      (computeResult ⟨none, none, some (DF.mk [⟨"E1", 1, [("filter_result", Val.boolean true),
        ("score_result", Val.num 1)]⟩]), none, []⟩).result_df.elim false
        (fun d => d.hasCol "filter_result") = true) :=
  scoreComputeResult_replaces (fun f => projectCols f ["score_result"])
    ⟨none, none, some (DF.mk [⟨"E1", 1, [("filter_result", Val.boolean true),
      ("score_result", Val.num 1)]⟩]), none, []⟩
    (DF.mk [⟨"E1", 1, [("filter_result", Val.boolean true), ("score_result", Val.num 1)]⟩])
    rfl (by simp)

/-- `states.get` on a singleton mapping. -/
theorem statesGet_singleton (e : EntityId) (v : Option StateV) :
    statesGet [(e, v)] e = v := by
  unfold statesGet
  simp

/-- `states.get` on a mapping built by tabulating a function over
entities. -/
theorem statesGet_map (g : EntityId → Option StateV) :
    ∀ (l : List EntityId) (e : EntityId), e ∈ l →
      statesGet (l.map (fun x => (x, g x))) e = g e := by
  intro l
  induction l with
  | nil => intro e he; cases he
  | cons x rest ih =>
    intro e he
    by_cases hx : x = e
    · subst hx
      unfold statesGet
      rw [List.map_cons, List.find?_cons_of_pos _ (by simp)]
    · have he2 : e ∈ rest := by
        rcases List.mem_cons.mp he with h | h
        · exact absurd h.symm hx
        · exact h
      unfold statesGet
      rw [List.map_cons, List.find?_cons_of_neg _ (by simp [hx])]
      show statesGet (rest.map (fun x => (x, g x))) e = g e
      exact ih e he2

/-- `states.get` misses when the entity is not among the keys. -/
theorem statesGet_eq_none (st : States) (e : EntityId) (h : e ∉ st.map Prod.fst) :
    statesGet st e = none := by
  unfold statesGet
  rw [List.find?_eq_none.mpr (fun p hp hb =>
    h (List.mem_map.mpr ⟨p, hp, by simpa using hb⟩))]

/-- The states component of the multi-entity fold, in closed form. -/
theorem accMulti_foldl_states (accOne : AccOne) (input_df : DF) (acc_df : Option DF)
    (states : States) :
    ∀ (l : List EntityId) (q : States × List Row),
      (l.foldl (accMultiStep accOne input_df acc_df states) q).1 =
        q.1 ++ l.map (fun e => (e, (accOne e (stripRows (sliceRows input_df e))
          (calAccDf acc_df e) (statesGet states e)).2)) := by
  intro l
  induction l with
  | nil => intro q; simp
  | cons e rest ih =>
    intro q
    rw [List.foldl_cons, ih (accMultiStep accOne input_df acc_df states q e)]
    show (q.1 ++ [(e, (accOne e (stripRows (sliceRows input_df e))
      (calAccDf acc_df e) (statesGet states e)).2)]) ++ rest.map _ = _
    simp

/-- The single-entity branch always returns the singleton states dict of
its entity. -/
theorem accSingleResult_snd (e : EntityId) (rs : Option (List ERow) × Option StateV) :
    (accSingleResult e rs).2 = [(e, rs.2)] := by
  unfold accSingleResult
  split
  · split <;> rfl
  · rfl

/-- The keys of the states returned by `Accumulator.acc` are exactly the
entities of the input table. -/
theorem acc_states_keys (accOne : AccOne) (input_df : DF) (acc_df : Option DF)
    (states : States) :
    (acc accOne input_df acc_df states).2.map Prod.fst = dfEntities input_df := by
  unfold acc
  rcases hents : dfEntities input_df with _ | ⟨e1, _ | ⟨e2, rest⟩⟩
  · show ((accMulti accOne input_df acc_df states).2.map Prod.fst) = []
    unfold accMulti
    rw [accMulti_foldl_states, hents]
    rfl
  · show ((accSingle accOne input_df acc_df states e1).2.map Prod.fst) = [e1]
    unfold accSingle
    rw [accSingleResult_snd]
    rfl
  · show ((accMulti accOne input_df acc_df states).2.map Prod.fst) = e1 :: e2 :: rest
    unfold accMulti
    rw [accMulti_foldl_states, List.nil_append, List.map_map]
    rw [show (Prod.fst ∘ fun e => (e, (accOne e (stripRows (sliceRows input_df e))
      (calAccDf acc_df e) (statesGet states e)).2)) = id from rfl]
    rw [List.map_id, hents]

/-- `cal_acc`'s prior-slice lookup is `None` whenever the previous
factor table is absent, empty, or lacks the entity. -/
theorem calAccDf_none (acc_df : Option DF) (e : EntityId)
    (hmiss : acc_df = none ∨
      ∃ adf, acc_df = some adf ∧ (adf.rows = [] ∨ e ∉ dfEntities adf)) :
    calAccDf acc_df e = none := by
  rcases hmiss with h | ⟨adf, ha, hcase⟩
  · rw [h]; rfl
  · subst ha
    simp only [calAccDf]
    rcases hcase with hrows | hnot
    · simp [hrows]
    · by_cases hemp : adf.rows.isEmpty = true
      · simp [hemp]
      · simp [hemp, hnot]

/-- The single-entity branch's prior-slice lookup is `None` under the
same missing-data conditions. -/
theorem accSingleAccDf_none (acc_df : Option DF) (e : EntityId)
    (hmiss : acc_df = none ∨
      ∃ adf, acc_df = some adf ∧ (adf.rows = [] ∨ e ∉ dfEntities adf)) :
    accSingleAccDf acc_df e = none := by
  rcases hmiss with h | ⟨adf, ha, hcase⟩
  · rw [h]; rfl
  · subst ha
    simp only [accSingleAccDf]
    rcases hcase with hrows | hnot
    · rw [hrows]
    · cases hr : adf.rows with
      | nil => rfl
      | cons r rest =>
        have hmem : r.entity_id ∈ dfEntities adf := by
          unfold dfEntities
          rw [List.mem_dedup]
          exact List.mem_map.mpr ⟨r, by rw [hr]; exact List.mem_cons_self _ _, rfl⟩
        have hne : r.entity_id ≠ e := fun hx => hnot (hx ▸ hmem)
        simp [hne]

/-- A table whose entity set is the singleton `[e]` is its own slice at
`e`. -/
theorem sliceRows_single (df : DF) (e : EntityId) (h : dfEntities df = [e]) :
    sliceRows df e = df.rows := by
  unfold sliceRows
  apply List.filter_eq_self.mpr
  intro r hr
  have hmem : r.entity_id ∈ dfEntities df := by
    unfold dfEntities
    rw [List.mem_dedup]
    exact List.mem_map.mpr ⟨r, hr, rfl⟩
  rw [h] at hmem
  have he : r.entity_id = e := by simpa using hmem
  simp [he]

/-- C8: `Accumulator.acc` tolerates missing prior data, for every
accumulator implementation `accOne` and every entity `e` present in the
input table.  First conjunct: `acc` always completes, and the state it
returns for `e` is the one produced by calling `acc_one` for `e` with
the branch's prior-slice lookup and the `states.get` lookup as
arguments — no missingness hypothesis at all.  Second conjunct: that
prior-slice argument is `None` whenever the previous factor table is
absent, empty, or lacks `e`.  Third conjunct: the state argument is
`None` whenever `e` has no entry in the states mapping.  Together: each
missing piece — the prior factor slice, the prior state, or both — is
replaced by `None`, also when only one of the two is missing (e.g. the
state absent while the previous factor table still contains `e`). -/
theorem acc_missing_prior (accOne : AccOne) (input_df : DF) (acc_df : Option DF)
    (states : States) (e : EntityId) (he : e ∈ dfEntities input_df) :
    (statesGet (acc accOne input_df acc_df states).2 e =
      (accOne e (stripRows (sliceRows input_df e)) (accPriorSlice input_df acc_df e)
        (statesGet states e)).2) ∧
    ((acc_df = none ∨
        ∃ adf, acc_df = some adf ∧ (adf.rows = [] ∨ e ∉ dfEntities adf)) →
      accPriorSlice input_df acc_df e = none) ∧
    (e ∉ states.map Prod.fst → statesGet states e = none) := by
  refine ⟨?_, ?_, fun hs => statesGet_eq_none states e hs⟩
  · unfold acc accPriorSlice
    rcases hents : dfEntities input_df with _ | ⟨e1, _ | ⟨e2, rest⟩⟩
    · rw [hents] at he; cases he
    · rw [hents] at he
      have he1 : e = e1 := by simpa using he
      subst he1
      show statesGet (accSingle accOne input_df acc_df states e).2 e =
        (accOne e (stripRows (sliceRows input_df e)) (accSingleAccDf acc_df e)
          (statesGet states e)).2
      unfold accSingle
      rw [sliceRows_single input_df e hents, accSingleResult_snd, statesGet_singleton]
    · show statesGet (accMulti accOne input_df acc_df states).2 e =
        (accOne e (stripRows (sliceRows input_df e)) (calAccDf acc_df e)
          (statesGet states e)).2
      unfold accMulti
      rw [accMulti_foldl_states, List.nil_append]
      rw [statesGet_map (fun x => (accOne x (stripRows (sliceRows input_df x))
        (calAccDf acc_df x) (statesGet states x)).2) (dfEntities input_df) e he]
  · intro hmiss
    unfold accPriorSlice
    rcases hents : dfEntities input_df with _ | ⟨e1, _ | ⟨e2, rest⟩⟩
    · show calAccDf acc_df e = none
      exact calAccDf_none acc_df e hmiss
    · show accSingleAccDf acc_df e = none
      exact accSingleAccDf_none acc_df e hmiss
    · show calAccDf acc_df e = none
      exact calAccDf_none acc_df e hmiss

/-- Witness for C8 at a concrete two-entity input whose previous factor
table does contain entity `E1` while the states mapping is empty — the
state-only-missing scenario: the `acc_one` call for `E1` receives the
present prior slice and `None` for the state. -/
theorem acc_missing_prior_witness :
    (statesGet (acc (fun e df _ _ => (some df, some [("n", 1)]))
      (DF.mk [⟨"E1", 1, [("v", Val.num 1)]⟩, ⟨"E2", 1, [("v", Val.num 2)]⟩])
      (some (DF.mk [⟨"E1", 0, [("v", Val.num 0)]⟩])) []).2 "E1" =
      ((fun (e : EntityId) (df : List ERow) (_ : Option (List ERow)) (_ : Option StateV) =>
        ((some df : Option (List ERow)), (some [("n", 1)] : Option StateV))) "E1"
        (stripRows (sliceRows (DF.mk [⟨"E1", 1, [("v", Val.num 1)]⟩,
          ⟨"E2", 1, [("v", Val.num 2)]⟩]) "E1"))
        (accPriorSlice (DF.mk [⟨"E1", 1, [("v", Val.num 1)]⟩, ⟨"E2", 1, [("v", Val.num 2)]⟩])
          (some (DF.mk [⟨"E1", 0, [("v", Val.num 0)]⟩])) "E1")
        (statesGet [] "E1")).2) ∧
    statesGet [] "E1" = none :=
  ⟨(acc_missing_prior (fun e df _ _ => (some df, some [("n", 1)]))
      (DF.mk [⟨"E1", 1, [("v", Val.num 1)]⟩, ⟨"E2", 1, [("v", Val.num 2)]⟩])
      (some (DF.mk [⟨"E1", 0, [("v", Val.num 0)]⟩])) [] "E1" (by decide)).1,
    (acc_missing_prior (fun e df _ _ => (some df, some [("n", 1)]))
      (DF.mk [⟨"E1", 1, [("v", Val.num 1)]⟩, ⟨"E2", 1, [("v", Val.num 2)]⟩])
      (some (DF.mk [⟨"E1", 0, [("v", Val.num 0)]⟩])) [] "E1" (by decide)).2.2 (by decide)⟩

/-- C10: `Accumulator.acc` returns a states mapping keyed exactly by the
input table's entities, and `compute_factor` assigns it wholesale;
consequently after a compute cycle whose (non-empty) pipe input lacks a
previously tracked entity, that entity's in-memory state is dropped. -/
theorem computeFactor_drops_absent_states (cfg : Config) (s : FactorS) (accOne : AccOne)
    (p : DF) (hol : cfg.only_load_factor = false) (hacc : cfg.accumulator = some accOne)
    (hpipe : pipeOf cfg s = some p) (hne : (!p.rows.isEmpty) = true) :
    (computeFactor cfg s).states.map Prod.fst = dfEntities p ∧
    (computeFactor cfg s).states = (acc accOne p s.factor_df s.states).2 ∧
    (∀ e, e ∉ dfEntities p → statesGet (computeFactor cfg s).states e = none) := by
  have hstates : (computeFactor cfg s).states = (acc accOne p s.factor_df s.states).2 := by
    unfold computeFactor
    rw [hol, if_neg (by simp), hpipe, hacc]
    show (if (!p.rows.isEmpty) = true then
        { s with
          pipe_df := some p
          factor_df := (acc accOne p s.factor_df s.states).1
          states := (acc accOne p s.factor_df s.states).2 }
      else { s with pipe_df := some p, factor_df := some p }).states =
      (acc accOne p s.factor_df s.states).2
    rw [if_pos hne]
  refine ⟨?_, hstates, ?_⟩
  · rw [hstates]
    exact acc_states_keys accOne p s.factor_df s.states
  · intro e he
    rw [hstates]
    apply statesGet_eq_none
    rw [acc_states_keys]
    exact he

/-- Witness for C10: a cycle whose input holds `E1`, `E2` drops the
state previously tracked for `OLD`. -/
theorem computeFactor_drops_absent_states_witness :
    ((computeFactor ⟨none, some (fun e df _ _ => (some df, some [("n", 1)])), false, false,
        false, id⟩
      ⟨some (DF.mk [⟨"E1", 1, [("v", Val.num 1)]⟩, ⟨"E2", 1, [("v", Val.num 2)]⟩]), none,
        none, none, [("OLD", some [("o", 1)])]⟩).states.map Prod.fst =
      dfEntities (DF.mk [⟨"E1", 1, [("v", Val.num 1)]⟩, ⟨"E2", 1, [("v", Val.num 2)]⟩])) ∧
    ((computeFactor ⟨none, some (fun e df _ _ => (some df, some [("n", 1)])), false, false,
        false, id⟩
      ⟨some (DF.mk [⟨"E1", 1, [("v", Val.num 1)]⟩, ⟨"E2", 1, [("v", Val.num 2)]⟩]), none,
        none, none, [("OLD", some [("o", 1)])]⟩).states =
      (acc (fun e df _ _ => (some df, some [("n", 1)]))
        (DF.mk [⟨"E1", 1, [("v", Val.num 1)]⟩, ⟨"E2", 1, [("v", Val.num 2)]⟩]) none
        [("OLD", some [("o", 1)])]).2) ∧
    (∀ e, e ∉ dfEntities (DF.mk [⟨"E1", 1, [("v", Val.num 1)]⟩,
        ⟨"E2", 1, [("v", Val.num 2)]⟩]) →
      statesGet (computeFactor ⟨none, some (fun e df _ _ => (some df, some [("n", 1)])),
        false, false, false, id⟩
        ⟨some (DF.mk [⟨"E1", 1, [("v", Val.num 1)]⟩, ⟨"E2", 1, [("v", Val.num 2)]⟩]), none,
          none, none, [("OLD", some [("o", 1)])]⟩).states e = none) :=
  computeFactor_drops_absent_states
    ⟨none, some (fun e df _ _ => (some df, some [("n", 1)])), false, false, false, id⟩
    ⟨some (DF.mk [⟨"E1", 1, [("v", Val.num 1)]⟩, ⟨"E2", 1, [("v", Val.num 2)]⟩]), none,
      none, none, [("OLD", some [("o", 1)])]⟩
    (fun e df _ _ => (some df, some [("n", 1)]))
    (DF.mk [⟨"E1", 1, [("v", Val.num 1)]⟩, ⟨"E2", 1, [("v", Val.num 2)]⟩])
    rfl rfl rfl rfl

/-- `pre_compute` touches only the pipe table. -/
theorem preCompute_fields (cfg : Config) (s : FactorS) :
    (preCompute cfg s).data_df = s.data_df ∧ (preCompute cfg s).factor_df = s.factor_df ∧
    (preCompute cfg s).result_df = s.result_df ∧ (preCompute cfg s).states = s.states := by
  unfold preCompute
  split <;> exact ⟨rfl, rfl, rfl, rfl⟩

/-- The pipe stage depends only on the raw input table. -/
theorem pipeOf_congr (cfg : Config) (s s' : FactorS) (h : s.data_df = s'.data_df) :
    pipeOf cfg s = pipeOf cfg s' := by
  unfold pipeOf
  rw [h]

/-- `compute_factor` of a stateless factor replaces pipe and factor
tables by the transformed input and leaves everything else unchanged. -/
theorem computeFactor_stateless (cfg : Config) (s : FactorS) (hacc : cfg.accumulator = none)
    (holf : cfg.only_load_factor = false) :
    computeFactor cfg s = { s with pipe_df := pipeOf cfg s, factor_df := pipeOf cfg s } := by
  unfold computeFactor
  rw [holf, hacc]
  simp only [Bool.false_eq_true, if_false]
  cases hX : pipeOf cfg s with
  | none => rfl
  | some p => rfl

/-- `compute_result` in closed form. -/
theorem computeResult_form (x : FactorS) :
    computeResult x = (if (pdIsNotNull x.factor_df && !(colsOf x.factor_df).isEmpty) = true
      then { x with result_df := x.factor_df.map (fun f => projectCols f (colsOf x.factor_df)) }
      else x) := by
  unfold computeResult
  by_cases h1 : pdIsNotNull x.factor_df = true <;>
    by_cases h2 : (!(colsOf x.factor_df).isEmpty) = true <;>
      simp [h1, h2]

/-- `compute_result` is idempotent. -/
theorem computeResult_idem (x : FactorS) :
    computeResult (computeResult x) = computeResult x := by
  by_cases h : (pdIsNotNull x.factor_df && !(colsOf x.factor_df).isEmpty) = true
  · rw [computeResult_form x, if_pos h, computeResult_form, if_pos h]
  · have hx : computeResult x = x := by rw [computeResult_form, if_neg h]
    rw [hx, hx]

/-- The fields of `compute_result ∘ compute_factor ∘ pre_compute` for a
stateless factor, in closed form. -/
theorem dq_fields (cfg : Config) (s : FactorS) (hacc : cfg.accumulator = none)
    (holf : cfg.only_load_factor = false) :
    (computeResult (computeFactor cfg (preCompute cfg s))).data_df = s.data_df ∧
    (computeResult (computeFactor cfg (preCompute cfg s))).pipe_df = pipeOf cfg s ∧
    (computeResult (computeFactor cfg (preCompute cfg s))).factor_df = pipeOf cfg s ∧
    (computeResult (computeFactor cfg (preCompute cfg s))).states = s.states ∧
    (computeResult (computeFactor cfg (preCompute cfg s))).result_df =
      resultAfter (pipeOf cfg s) s.result_df := by
  obtain ⟨hd, hf, hr, hst⟩ := preCompute_fields cfg s
  have hp : pipeOf cfg (preCompute cfg s) = pipeOf cfg s := pipeOf_congr cfg _ _ hd
  rw [computeResult_form, computeFactor_stateless cfg (preCompute cfg s) hacc holf]
  dsimp only
  rw [hp, hd, hr, hst]
  unfold resultAfter
  by_cases hC : (pdIsNotNull (pipeOf cfg s) && !(colsOf (pipeOf cfg s)).isEmpty) = true
  · rw [if_pos hC, if_pos hC]
    exact ⟨rfl, rfl, rfl, rfl, rfl⟩
  · rw [if_neg hC, if_neg hC]
    exact ⟨rfl, rfl, rfl, rfl, rfl⟩

/-- One `compute_result` pass absorbs a previous one. -/
theorem resultAfter_idem (P : Option DF) (r0 : Option DF) :
    resultAfter P (resultAfter P r0) = resultAfter P r0 := by
  unfold resultAfter
  by_cases hC : (pdIsNotNull P && !(colsOf P).isEmpty) = true <;> simp [hC]

/-- The two outcomes of `after_compute` when not in only-load mode: no
gap filling, or gap filling of a non-null result table. -/
theorem afterCompute_cases (cfg : Config) (x x' : FactorS) (holf : cfg.only_load_factor = false)
    (h : afterCompute cfg x = .ok x') :
    (cfg.keep_all_timestamp = false ∧ x' = x) ∨
    (cfg.keep_all_timestamp = true ∧ ∃ r, x.result_df = some r ∧
      x' = { x with result_df := some (cfg.fillGapFn r) }) := by
  unfold afterCompute at h
  rw [holf] at h
  simp only [Bool.false_eq_true, if_false] at h
  cases hkat : cfg.keep_all_timestamp with
  | false =>
    rw [hkat] at h
    simp only [Bool.false_eq_true, if_false] at h
    injection h with h2
    exact Or.inl ⟨rfl, h2.symm⟩
  | true =>
    rw [hkat] at h
    simp only [if_true] at h
    unfold fillGap at h
    cases hr : x.result_df with
    | none =>
      rw [hr] at h
      have h2 : (Except.error (PyError.attributeError "NoneType has no attribute index") :
          Except PyError FactorS) = .ok x' := h
      exact Except.noConfusion h2
    | some r =>
      rw [hr] at h
      have h2 : (Except.ok { x with result_df := some (cfg.fillGapFn r) } :
          Except PyError FactorS) = .ok x' := h
      injection h2 with h3
      exact Or.inr ⟨rfl, r, rfl, h3.symm⟩

/-- C4: for a stateless factor (no accumulator) started from a fresh
result table, running the compute cycle twice on identical, unchanged
raw input yields bit-identical pipe, factor, and result tables: the
second successful cycle changes nothing, because the transform stage is
a pure function of the raw input. -/
theorem compute_stateless_idempotent (cfg : Config) (s s1 s2 : FactorS)
    (hacc : cfg.accumulator = none) (hres : s.result_df = none)
    (h1 : compute cfg s = .ok s1) (h2 : compute cfg s1 = .ok s2) :
    s2.pipe_df = s1.pipe_df ∧ s2.factor_df = s1.factor_df ∧ s2.result_df = s1.result_df := by
  cases holf : cfg.only_load_factor with
  | true =>
    have hpre : ∀ x : FactorS, preCompute cfg x = x := by
      intro x
      unfold preCompute
      rw [holf]
      simp
    have hcf : ∀ x : FactorS, computeFactor cfg x = x := by
      intro x
      unfold computeFactor
      rw [holf]
      simp
    have haft : ∀ x : FactorS, afterCompute cfg x = .ok x := by
      intro x
      unfold afterCompute
      rw [holf]
      simp
    have e1 : s1 = computeResult s := by
      have hc := h1
      unfold compute at hc
      rw [hpre, hcf, haft] at hc
      injection hc with h3
      exact h3.symm
    have e2 : s2 = computeResult s1 := by
      have hc := h2
      unfold compute at hc
      rw [hpre, hcf, haft] at hc
      injection hc with h3
      exact h3.symm
    rw [e2, e1, computeResult_idem]
    exact ⟨rfl, rfl, rfl⟩
  | false =>
    have hd1 := dq_fields cfg s hacc holf
    have hd2 := dq_fields cfg s1 hacc holf
    have h1' : afterCompute cfg (computeResult (computeFactor cfg (preCompute cfg s))) =
        .ok s1 := h1
    have h2' : afterCompute cfg (computeResult (computeFactor cfg (preCompute cfg s1))) =
        .ok s2 := h2
    rcases afterCompute_cases cfg _ s1 holf h1' with ⟨hkat, hx1⟩ | ⟨hkat, r, hrr, hx1⟩
    · rcases afterCompute_cases cfg _ s2 holf h2' with ⟨_, hx2⟩ | ⟨hkat2, _, _, _⟩
      swap
      · rw [hkat] at hkat2
        exact Bool.noConfusion hkat2
      have hdata : s1.data_df = s.data_df := by
        conv_lhs => rw [hx1]
        exact hd1.1
      have hP : pipeOf cfg s1 = pipeOf cfg s := by
        unfold pipeOf
        rw [hdata]
      have e2p : s2.pipe_df = pipeOf cfg s1 := by
        conv_lhs => rw [hx2]
        exact hd2.2.1
      have e1p : s1.pipe_df = pipeOf cfg s := by
        conv_lhs => rw [hx1]
        exact hd1.2.1
      have e2f : s2.factor_df = pipeOf cfg s1 := by
        conv_lhs => rw [hx2]
        exact hd2.2.2.1
      have e1f : s1.factor_df = pipeOf cfg s := by
        conv_lhs => rw [hx1]
        exact hd1.2.2.1
      have e2r : s2.result_df = resultAfter (pipeOf cfg s1) s1.result_df := by
        conv_lhs => rw [hx2]
        exact hd2.2.2.2.2
      have e1r : s1.result_df = resultAfter (pipeOf cfg s) s.result_df := by
        conv_lhs => rw [hx1]
        exact hd1.2.2.2.2
      refine ⟨?_, ?_, ?_⟩
      · exact e2p.trans (hP.trans e1p.symm)
      · exact e2f.trans (hP.trans e1f.symm)
      · calc s2.result_df = resultAfter (pipeOf cfg s1) s1.result_df := e2r
          _ = resultAfter (pipeOf cfg s) (resultAfter (pipeOf cfg s) s.result_df) := by
            rw [hP, e1r]
          _ = resultAfter (pipeOf cfg s) s.result_df :=
            resultAfter_idem (pipeOf cfg s) s.result_df
          _ = s1.result_df := e1r.symm
    · rcases afterCompute_cases cfg _ s2 holf h2' with ⟨hkat2, _⟩ | ⟨_, r2, hrr2, hx2⟩
      · rw [hkat] at hkat2
        exact Bool.noConfusion hkat2
      have hd1res : resultAfter (pipeOf cfg s) s.result_df = some r := by
        rw [← hd1.2.2.2.2]
        exact hrr
      have hdata : s1.data_df = s.data_df := by
        conv_lhs => rw [hx1]
        exact hd1.1
      have hP : pipeOf cfg s1 = pipeOf cfg s := by
        unfold pipeOf
        rw [hdata]
      have hs1res : s1.result_df = some (cfg.fillGapFn r) := by
        conv_lhs => rw [hx1]
      have hC : (pdIsNotNull (pipeOf cfg s) && !(colsOf (pipeOf cfg s)).isEmpty) = true := by
        by_contra hC
        unfold resultAfter at hd1res
        rw [if_neg hC, hres] at hd1res
        exact Option.noConfusion hd1res
      have hd2res : resultAfter (pipeOf cfg s) s1.result_df = some r := by
        unfold resultAfter at hd1res ⊢
        rw [if_pos hC] at hd1res ⊢
        exact hd1res
      have hr2 : r2 = r := by
        have ht : resultAfter (pipeOf cfg s1) s1.result_df = some r2 := by
          rw [← hd2.2.2.2.2]
          exact hrr2
        rw [hP, hd2res] at ht
        injection ht with ht2
        exact ht2.symm
      have e2p : s2.pipe_df = pipeOf cfg s1 := by
        conv_lhs => rw [hx2]
        exact hd2.2.1
      have e1p : s1.pipe_df = pipeOf cfg s := by
        conv_lhs => rw [hx1]
        exact hd1.2.1
      have e2f : s2.factor_df = pipeOf cfg s1 := by
        conv_lhs => rw [hx2]
        exact hd2.2.2.1
      have e1f : s1.factor_df = pipeOf cfg s := by
        conv_lhs => rw [hx1]
        exact hd1.2.2.1
      have e2r : s2.result_df = some (cfg.fillGapFn r2) := by
        conv_lhs => rw [hx2]
      refine ⟨?_, ?_, ?_⟩
      · exact e2p.trans (hP.trans e1p.symm)
      · exact e2f.trans (hP.trans e1f.symm)
      · rw [e2r, hr2, ← hs1res]

/-- Witness for C4 at a concrete one-entity raw input with a
`filter_result` column, default flags. -/
theorem compute_stateless_idempotent_witness :
    (⟨some (DF.mk [⟨"E1", 1, [("filter_result", Val.boolean true)]⟩]),
        some (DF.mk [⟨"E1", 1, [("filter_result", Val.boolean true)]⟩]),
        some (DF.mk [⟨"E1", 1, [("filter_result", Val.boolean true)]⟩]),
        some (projectCols (DF.mk [⟨"E1", 1, [("filter_result", Val.boolean true)]⟩])
          ["filter_result"]), []⟩ : FactorS).pipe_df =
      (⟨some (DF.mk [⟨"E1", 1, [("filter_result", Val.boolean true)]⟩]),
        some (DF.mk [⟨"E1", 1, [("filter_result", Val.boolean true)]⟩]),
        some (DF.mk [⟨"E1", 1, [("filter_result", Val.boolean true)]⟩]),
        some (projectCols (DF.mk [⟨"E1", 1, [("filter_result", Val.boolean true)]⟩])
          ["filter_result"]), []⟩ : FactorS).pipe_df ∧
    (⟨some (DF.mk [⟨"E1", 1, [("filter_result", Val.boolean true)]⟩]),
        some (DF.mk [⟨"E1", 1, [("filter_result", Val.boolean true)]⟩]),
        some (DF.mk [⟨"E1", 1, [("filter_result", Val.boolean true)]⟩]),
        some (projectCols (DF.mk [⟨"E1", 1, [("filter_result", Val.boolean true)]⟩])
          ["filter_result"]), []⟩ : FactorS).factor_df =
      (⟨some (DF.mk [⟨"E1", 1, [("filter_result", Val.boolean true)]⟩]),
        some (DF.mk [⟨"E1", 1, [("filter_result", Val.boolean true)]⟩]),
        some (DF.mk [⟨"E1", 1, [("filter_result", Val.boolean true)]⟩]),
        some (projectCols (DF.mk [⟨"E1", 1, [("filter_result", Val.boolean true)]⟩])
          ["filter_result"]), []⟩ : FactorS).factor_df ∧
    (⟨some (DF.mk [⟨"E1", 1, [("filter_result", Val.boolean true)]⟩]),
        some (DF.mk [⟨"E1", 1, [("filter_result", Val.boolean true)]⟩]),
        some (DF.mk [⟨"E1", 1, [("filter_result", Val.boolean true)]⟩]),
        some (projectCols (DF.mk [⟨"E1", 1, [("filter_result", Val.boolean true)]⟩])
          ["filter_result"]), []⟩ : FactorS).result_df =
      (⟨some (DF.mk [⟨"E1", 1, [("filter_result", Val.boolean true)]⟩]),
        some (DF.mk [⟨"E1", 1, [("filter_result", Val.boolean true)]⟩]),
        some (DF.mk [⟨"E1", 1, [("filter_result", Val.boolean true)]⟩]),
        some (projectCols (DF.mk [⟨"E1", 1, [("filter_result", Val.boolean true)]⟩])
          ["filter_result"]), []⟩ : FactorS).result_df :=
  compute_stateless_idempotent ⟨none, none, false, false, false, id⟩
    ⟨some (DF.mk [⟨"E1", 1, [("filter_result", Val.boolean true)]⟩]), none, none, none, []⟩
    ⟨some (DF.mk [⟨"E1", 1, [("filter_result", Val.boolean true)]⟩]),
      some (DF.mk [⟨"E1", 1, [("filter_result", Val.boolean true)]⟩]),
      some (DF.mk [⟨"E1", 1, [("filter_result", Val.boolean true)]⟩]),
      some (projectCols (DF.mk [⟨"E1", 1, [("filter_result", Val.boolean true)]⟩])
        ["filter_result"]), []⟩
    ⟨some (DF.mk [⟨"E1", 1, [("filter_result", Val.boolean true)]⟩]),
      some (DF.mk [⟨"E1", 1, [("filter_result", Val.boolean true)]⟩]),
      some (DF.mk [⟨"E1", 1, [("filter_result", Val.boolean true)]⟩]),
      some (projectCols (DF.mk [⟨"E1", 1, [("filter_result", Val.boolean true)]⟩])
        ["filter_result"]), []⟩
    rfl rfl rfl rfl

/-- Membership in the Python set difference. -/
theorem mem_pySetDiff (a b : List EntityId) (x : EntityId) :
    x ∈ pySetDiff a b ↔ (x ∈ a ∧ x ∉ b) := by
  unfold pySetDiff
  rw [List.mem_dedup, List.mem_filter]
  constructor
  · rintro ⟨h1, h2⟩
    refine ⟨h1, fun hb => ?_⟩
    have he : b.contains x = true := List.elem_iff.mpr hb
    rw [he] at h2
    exact Bool.noConfusion h2
  · rintro ⟨h1, h2⟩
    refine ⟨h1, ?_⟩
    have hc : b.contains x = false := by
      cases hc : b.contains x with
      | false => rfl
      | true => exact absurd (List.elem_iff.mp hc) h2
    rw [hc]
    rfl

/-- C6: `add_entities` with a set of identifiers equal (as a set) to the
non-empty tracked set is a no-op — nothing is fetched and no table
changes; with a strict superset, only the genuinely new identifiers'
raw input (skipped entirely in only-load mode) and persisted factor rows
are fetched, appended to the respective tables, and the tables re-sorted
by `(entity, timestamp)`. -/
theorem addEntities_incremental (env : AddEnv) (olf : Bool) (s : AddState)
    (ids : List EntityId) :
    (s.entity_ids ≠ [] → pySetEq s.entity_ids ids = true →
      addEntities env olf s ids = ⟨s, none, none⟩) ∧
    ((∀ x ∈ s.entity_ids, x ∈ ids) → (∃ x, x ∈ ids ∧ x ∉ s.entity_ids) →
      ((addEntities env olf s ids).fetchedFactor = some (pySetDiff ids s.entity_ids) ∧
       (addEntities env olf s ids).fetchedRaw =
         (if olf then none else some (pySetDiff ids s.entity_ids)) ∧
       (∀ x, x ∈ pySetDiff ids s.entity_ids ↔ (x ∈ ids ∧ x ∉ s.entity_ids)) ∧
       (addEntities env olf s ids).st.data_df = (if olf then s.data_df else
         some ⟨sortIndexRows ((s.data_df.elim [] (fun d => d.rows)) ++
           (env.queryData (pySetDiff ids s.entity_ids)).rows)⟩) ∧
       (addEntities env olf s ids).st.factor_df =
         some ⟨sortIndexRows ((s.factor_df.elim [] (fun d => d.rows)) ++
           (env.decodeFn (env.queryFactor (pySetDiff ids s.entity_ids))).rows)⟩)) := by
  constructor
  · intro hne hseq
    have hA : s.entity_ids.isEmpty = false := by
      cases hs : s.entity_ids with
      | nil => exact absurd hs hne
      | cons y t => rfl
    have hB : ids.isEmpty = false := by
      have hall := hseq
      unfold pySetEq at hall
      rw [Bool.and_eq_true] at hall
      cases hs : s.entity_ids with
      | nil => exact absurd hs hne
      | cons y t =>
        have hy : ids.contains y = true := by
          have := List.all_eq_true.mp hall.1 y (by rw [hs]; exact List.mem_cons_self _ _)
          simpa using this
        cases hi : ids with
        | nil => rw [hi] at hy; exact Bool.noConfusion hy
        | cons a l => rfl
    unfold addEntities
    rw [if_pos (by rw [hA, hB, hseq]; rfl)]
  · rintro hsub ⟨x, hxids, hxnot⟩
    have hseq : pySetEq s.entity_ids ids = false := by
      unfold pySetEq
      have hB : ids.all (fun y => s.entity_ids.contains y) = false := by
        cases hall : ids.all (fun y => s.entity_ids.contains y) with
        | false => rfl
        | true =>
          have := List.all_eq_true.mp hall x hxids
          exact absurd (List.elem_iff.mp (by simpa using this)) hxnot
      rw [hB, Bool.and_false]
    have hids : ids.isEmpty = false := by
      cases hi : ids with
      | nil => rw [hi] at hxids; cases hxids
      | cons a l => rfl
    have hdiffmem : x ∈ pySetDiff ids s.entity_ids := (mem_pySetDiff ids s.entity_ids x).mpr
      ⟨hxids, hxnot⟩
    have hdiff : (pySetDiff ids s.entity_ids).isEmpty = false := by
      cases hd : pySetDiff ids s.entity_ids with
      | nil => rw [hd] at hdiffmem; cases hdiffmem
      | cons a l => rfl
    unfold addEntities
    rw [if_neg (by rw [hseq, Bool.and_false]; exact Bool.false_ne_true)]
    rw [if_pos (by rw [hids]; rfl)]
    unfold addEntitiesNew
    rw [if_pos (by rw [hdiff]; rfl)]
    cases olf with
    | false => exact ⟨rfl, rfl, fun y => mem_pySetDiff ids s.entity_ids y, rfl, rfl⟩
    | true => exact ⟨rfl, rfl, fun y => mem_pySetDiff ids s.entity_ids y, rfl, rfl⟩

/-- Witness for C6 at a concrete strict-superset call: tracked `["A"]`
extended with `["A", "B"]`, not in only-load mode. -/
theorem addEntities_incremental_witness :
    ((addEntities ⟨fun _ => DF.mk [⟨"B", 1, []⟩], fun _ => DF.mk [], id⟩ false
        ⟨["A"], some (DF.mk [⟨"A", 1, []⟩]), none⟩ ["A", "B"]).fetchedFactor =
      some (pySetDiff ["A", "B"] ["A"]) ∧
     (addEntities ⟨fun _ => DF.mk [⟨"B", 1, []⟩], fun _ => DF.mk [], id⟩ false
        ⟨["A"], some (DF.mk [⟨"A", 1, []⟩]), none⟩ ["A", "B"]).fetchedRaw =
      (if false then none else some (pySetDiff ["A", "B"] ["A"])) ∧
     (∀ x, x ∈ pySetDiff ["A", "B"] ["A"] ↔ (x ∈ ["A", "B"] ∧ x ∉ ["A"])) ∧
     (addEntities ⟨fun _ => DF.mk [⟨"B", 1, []⟩], fun _ => DF.mk [], id⟩ false
        ⟨["A"], some (DF.mk [⟨"A", 1, []⟩]), none⟩ ["A", "B"]).st.data_df =
      (if false then some (DF.mk [⟨"A", 1, []⟩]) else
        some ⟨sortIndexRows (((some (DF.mk [⟨"A", 1, []⟩])).elim [] (fun d => d.rows)) ++
          ((⟨fun _ => DF.mk [⟨"B", 1, []⟩], fun _ => DF.mk [], id⟩ : AddEnv).queryData
            (pySetDiff ["A", "B"] ["A"])).rows)⟩) ∧
     (addEntities ⟨fun _ => DF.mk [⟨"B", 1, []⟩], fun _ => DF.mk [], id⟩ false
        ⟨["A"], some (DF.mk [⟨"A", 1, []⟩]), none⟩ ["A", "B"]).st.factor_df =
      some ⟨sortIndexRows (((none : Option DF).elim [] (fun d => d.rows)) ++
        ((⟨fun _ => DF.mk [⟨"B", 1, []⟩], fun _ => DF.mk [], id⟩ : AddEnv).decodeFn
          ((⟨fun _ => DF.mk [⟨"B", 1, []⟩], fun _ => DF.mk [], id⟩ : AddEnv).queryFactor
            (pySetDiff ["A", "B"] ["A"]))).rows)⟩) :=
  (addEntities_incremental ⟨fun _ => DF.mk [⟨"B", 1, []⟩], fun _ => DF.mk [], id⟩ false
      ⟨["A"], some (DF.mk [⟨"A", 1, []⟩]), none⟩ ["A", "B"]).2
    (by decide) ⟨"B", by decide, by decide⟩

end Pipeline

namespace Persist

/-- C3 counterexample: the claim "no compute cycle runs during
initialization, regardless of the other constructor flags" fails at the
concrete constructor flags `clear_state = true, only_load_factor =
true`: the final `if self.only_load_factor: self.compute()` of
`__init__` is outside the `clear_state` branch, so one compute cycle is
invoked. -/
theorem factorInit_clear_state_runs_compute :
    (factorInit ⟨false, fun _ => none, fun _ => none, fun d _ => d, none⟩
      ⟨true, false, true, false⟩ ⟨fun _ => none, fun _ => []⟩ none).computeRuns = 1 := rfl

/-- C3 (amended): for every factor constructed with `clear_state = true`,
initialization deletes all persisted factor rows and accumulator state
for this factor, loads no persisted factor table, and runs no compute
cycle — except that when `only_load_factor` is also set, the trailing
`if self.only_load_factor` of `__init__` still invokes `compute()` once
(on the empty, never-loaded tables). -/
theorem factorInit_clear_state (env : InitEnv) (flags : InitFlags) (store : Store)
    (data_df : Option Pipeline.DF) (h : flags.clear_state = true) :
    (∀ e, (factorInit env flags store data_df).store.stateOf e = none ∧
      (factorInit env flags store data_df).store.rowsOf e = []) ∧
    (factorInit env flags store data_df).factor_df = none ∧
    (factorInit env flags store data_df).computeRuns =
      (if flags.only_load_factor then 1 else 0) := by
  unfold factorInit
  rw [if_pos h]
  exact ⟨fun e => ⟨rfl, rfl⟩, rfl, rfl⟩

/-- One persist-loop iteration only writes its own entity's store
components. -/
theorem persistEntityStep_other (env : PersistEnv) (df : Pipeline.DF) (store : Store)
    (p : EntityId × Option Pipeline.StateV) (e : EntityId) (he : e ≠ p.1) :
    (persistEntityStep env df store p).stateOf e = store.stateOf e ∧
    (persistEntityStep env df store p).rowsOf e = store.rowsOf e := by
  unfold persistEntityStep rowStep clearStateData putState putRows
  split_ifs <;> constructor <;> simp [he]

/-- One persist-loop iteration's effect on its own entity's components
depends only on those components and that entity's failure flags. -/
theorem persistEntityStep_own (env env' : PersistEnv) (df : Pipeline.DF) (s1 s2 : Store)
    (p : EntityId × Option Pipeline.StateV)
    (hsf : env.stateFail p.1 = env'.stateFail p.1) (hrf : env.rowFail p.1 = env'.rowFail p.1)
    (hst : s1.stateOf p.1 = s2.stateOf p.1) (hrw : s1.rowsOf p.1 = s2.rowsOf p.1) :
    (persistEntityStep env df s1 p).stateOf p.1 = (persistEntityStep env' df s2 p).stateOf p.1 ∧
    (persistEntityStep env df s1 p).rowsOf p.1 = (persistEntityStep env' df s2 p).rowsOf p.1 := by
  unfold persistEntityStep rowStep clearStateData putState putRows
  rw [hsf, hrf]
  split_ifs <;> constructor <;> simp [hst, hrw]

/-- The persist loop under two environments that agree on an entity's
failure flags produces the same components for that entity, from stores
agreeing there. -/
theorem persistFold_agree (env env' : PersistEnv) (df : Pipeline.DF) (e : EntityId)
    (hsf : env.stateFail e = env'.stateFail e) (hrf : env.rowFail e = env'.rowFail e) :
    ∀ (states : Pipeline.States) (s1 s2 : Store),
      s1.stateOf e = s2.stateOf e → s1.rowsOf e = s2.rowsOf e →
      (states.foldl (persistEntityStep env df) s1).stateOf e =
        (states.foldl (persistEntityStep env' df) s2).stateOf e ∧
      (states.foldl (persistEntityStep env df) s1).rowsOf e =
        (states.foldl (persistEntityStep env' df) s2).rowsOf e := by
  intro states
  induction states with
  | nil => intro s1 s2 h1 h2; exact ⟨h1, h2⟩
  | cons p rest ih =>
    intro s1 s2 h1 h2
    rw [List.foldl_cons, List.foldl_cons]
    by_cases hpe : e = p.1
    · subst hpe
      have hstep := persistEntityStep_own env env' df s1 s2 p hsf hrf h1 h2
      exact ih _ _ hstep.1 hstep.2
    · have l1 := persistEntityStep_other env df s1 p e hpe
      have l2 := persistEntityStep_other env' df s2 p e hpe
      exact ih _ _ (l1.1.trans (h1.trans l2.1.symm)) (l1.2.trans (h2.trans l2.2.symm))

/-- The persist loop leaves the components of an entity that is not
among the iterated keys unchanged. -/
theorem persistFold_untouched (env : PersistEnv) (df : Pipeline.DF) (e : EntityId) :
    ∀ (states : Pipeline.States) (s : Store), e ∉ states.map Prod.fst →
      (states.foldl (persistEntityStep env df) s).stateOf e = s.stateOf e ∧
      (states.foldl (persistEntityStep env df) s).rowsOf e = s.rowsOf e := by
  intro states
  induction states with
  | nil => intro s _; exact ⟨rfl, rfl⟩
  | cons p rest ih =>
    intro s hmem
    simp only [List.map_cons, List.mem_cons, not_or] at hmem
    obtain ⟨hne, hrest⟩ := hmem
    rw [List.foldl_cons]
    have l1 := persistEntityStep_other env df s p e hne
    have hr := ih (persistEntityStep env df s p) hrest
    exact ⟨hr.1.trans l1.1, hr.2.trans l1.2⟩

/-- A loop iteration that raises ends with that entity's persisted state
and factor rows cleared. -/
theorem persistEntityStep_raises (env : PersistEnv) (df : Pipeline.DF) (s : Store)
    (p : EntityId × Option Pipeline.StateV) (h : entityRaises env df p = true) :
    (persistEntityStep env df s p).stateOf p.1 = none ∧
    (persistEntityStep env df s p).rowsOf p.1 = [] := by
  by_cases htr : stateTruthy p.2 = true <;>
    by_cases hsf : env.stateFail p.1 = true <;>
      by_cases hin : p.1 ∈ Pipeline.dfEntities df <;>
        by_cases hrf : env.rowFail p.1 = true <;>
          simp_all [persistEntityStep, rowStep, clearStateData, putState, putRows, entityRaises]

/-- C2: during `persist_factor` of a stateful factor, when the loop
iteration for entity `E` raises (failing state put or failing row put)
and no other entity's puts fail, the persisted state and factor rows of
`E` — and only of `E` — end cleared, and every other entity's store
components are exactly those of the failure-free run; the exception is
caught inside the loop, so the whole persist is a total function. -/
theorem persistFactor_entity_isolation
    (env : PersistEnv) (df : Pipeline.DF) (states : Pipeline.States) (store : Store)
    (E : EntityId) (svE : Option Pipeline.StateV)
    (hmem : (E, svE) ∈ states)
    (hnodup : (states.map Prod.fst).Nodup)
    (hraise : entityRaises env df (E, svE) = true)
    (honly : ∀ e, e ≠ E → env.stateFail e = false ∧ env.rowFail e = false) :
    ((persistFactor env states df store).stateOf E = none ∧
     (persistFactor env states df store).rowsOf E = []) ∧
    (∀ e, e ≠ E →
      (persistFactor env states df store).stateOf e =
        (persistFactor noFailEnv states df store).stateOf e ∧
      (persistFactor env states df store).rowsOf e =
        (persistFactor noFailEnv states df store).rowsOf e) := by
  have hnonempty : (!states.isEmpty) = true := by
    cases states with
    | nil => cases hmem
    | cons a l => rfl
  have hpf : ∀ env0 : PersistEnv, persistFactor env0 states df store =
      states.foldl (persistEntityStep env0 df) store := by
    intro env0
    unfold persistFactor
    rw [if_pos hnonempty]
  constructor
  · obtain ⟨pre, post, hsplit⟩ := List.append_of_mem hmem
    have hEpost : E ∉ post.map Prod.fst := by
      rw [hsplit] at hnodup
      simp only [List.map_append, List.map_cons] at hnodup
      have h2 := (List.nodup_append.mp hnodup).2.1
      exact (List.nodup_cons.mp h2).1
    rw [hpf env, hsplit, List.foldl_append, List.foldl_cons]
    have hclear := persistEntityStep_raises env df
      (pre.foldl (persistEntityStep env df) store) (E, svE) hraise
    have hun := persistFold_untouched env df E post
      (persistEntityStep env df (pre.foldl (persistEntityStep env df) store) (E, svE)) hEpost
    exact ⟨hun.1.trans hclear.1, hun.2.trans hclear.2⟩
  · intro e he
    rw [hpf env, hpf noFailEnv]
    exact persistFold_agree env noFailEnv df e ((honly e he).1) ((honly e he).2)
      states store store rfl rfl

/-- Witness for C2 at a concrete two-entity persist where entity `E1`'s
state put fails: `E1` ends cleared and `E2` matches the failure-free
run. -/
theorem persistFactor_entity_isolation_witness :
    ((persistFactor ⟨fun e => e == "E1", fun _ => false⟩
        [("E1", some [("k", 1)]), ("E2", some [("k", 2)])]
        (Pipeline.DF.mk [⟨"E1", 1, [("v", Pipeline.Val.num 1)]⟩,
          ⟨"E2", 1, [("v", Pipeline.Val.num 2)]⟩])
        ⟨fun _ => none, fun _ => []⟩).stateOf "E1" = none ∧
     (persistFactor ⟨fun e => e == "E1", fun _ => false⟩
        [("E1", some [("k", 1)]), ("E2", some [("k", 2)])]
        (Pipeline.DF.mk [⟨"E1", 1, [("v", Pipeline.Val.num 1)]⟩,
          ⟨"E2", 1, [("v", Pipeline.Val.num 2)]⟩])
        ⟨fun _ => none, fun _ => []⟩).rowsOf "E1" = []) ∧
    (∀ e, e ≠ "E1" →
      (persistFactor ⟨fun e => e == "E1", fun _ => false⟩
        [("E1", some [("k", 1)]), ("E2", some [("k", 2)])]
        (Pipeline.DF.mk [⟨"E1", 1, [("v", Pipeline.Val.num 1)]⟩,
          ⟨"E2", 1, [("v", Pipeline.Val.num 2)]⟩])
        ⟨fun _ => none, fun _ => []⟩).stateOf e =
        (persistFactor noFailEnv
          [("E1", some [("k", 1)]), ("E2", some [("k", 2)])]
          (Pipeline.DF.mk [⟨"E1", 1, [("v", Pipeline.Val.num 1)]⟩,
            ⟨"E2", 1, [("v", Pipeline.Val.num 2)]⟩])
          ⟨fun _ => none, fun _ => []⟩).stateOf e ∧
      (persistFactor ⟨fun e => e == "E1", fun _ => false⟩
        [("E1", some [("k", 1)]), ("E2", some [("k", 2)])]
        (Pipeline.DF.mk [⟨"E1", 1, [("v", Pipeline.Val.num 1)]⟩,
          ⟨"E2", 1, [("v", Pipeline.Val.num 2)]⟩])
        ⟨fun _ => none, fun _ => []⟩).rowsOf e =
        (persistFactor noFailEnv
          [("E1", some [("k", 1)]), ("E2", some [("k", 2)])]
          (Pipeline.DF.mk [⟨"E1", 1, [("v", Pipeline.Val.num 1)]⟩,
            ⟨"E2", 1, [("v", Pipeline.Val.num 2)]⟩])
          ⟨fun _ => none, fun _ => []⟩).rowsOf e) :=
  persistFactor_entity_isolation ⟨fun e => e == "E1", fun _ => false⟩
    (Pipeline.DF.mk [⟨"E1", 1, [("v", Pipeline.Val.num 1)]⟩,
      ⟨"E2", 1, [("v", Pipeline.Val.num 2)]⟩])
    [("E1", some [("k", 1)]), ("E2", some [("k", 2)])]
    ⟨fun _ => none, fun _ => []⟩ "E1" (some [("k", 1)])
    (by simp) (by simp) (by simp [entityRaises, stateTruthy])
    (fun e he => ⟨by simp [he], rfl⟩)

/-- Witness for C3's amended theorem at concrete inputs (with
`need_persist` set, to exercise "regardless of the other flags"). -/
theorem factorInit_clear_state_witness :
    (∀ e, (factorInit ⟨true, fun _ => none, fun _ => none, fun d _ => d, some 5⟩
        ⟨true, true, false, false⟩
        ⟨fun _ => some [("k", 1)], fun _ => [⟨"E1", 1, []⟩]⟩ none).store.stateOf e = none ∧
      (factorInit ⟨true, fun _ => none, fun _ => none, fun d _ => d, some 5⟩
        ⟨true, true, false, false⟩
        ⟨fun _ => some [("k", 1)], fun _ => [⟨"E1", 1, []⟩]⟩ none).store.rowsOf e = []) ∧
    (factorInit ⟨true, fun _ => none, fun _ => none, fun d _ => d, some 5⟩
      ⟨true, true, false, false⟩
      ⟨fun _ => some [("k", 1)], fun _ => [⟨"E1", 1, []⟩]⟩ none).factor_df = none ∧
    (factorInit ⟨true, fun _ => none, fun _ => none, fun d _ => d, some 5⟩
      ⟨true, true, false, false⟩
      ⟨fun _ => some [("k", 1)], fun _ => [⟨"E1", 1, []⟩]⟩ none).computeRuns =
      (if (⟨true, true, false, false⟩ : InitFlags).only_load_factor then 1 else 0) :=
  factorInit_clear_state ⟨true, fun _ => none, fun _ => none, fun d _ => d, some 5⟩
    ⟨true, true, false, false⟩ ⟨fun _ => some [("k", 1)], fun _ => [⟨"E1", 1, []⟩]⟩ none rfl

end Persist

end Zvt
